import Mathlib

/-!
Verification development for the Advanced-Text-Engine world-model core.

Shallow embedding of:
  * `src/advanced-story-engine/src/utils/Constants.js`
  * `src/advanced-story-engine/src/core/RelationshipGraph.js` (namespace `Core`)
  * `src/unnamed/part_004` — the documented `RelationshipGraph` rewrite (namespace `Enhanced`)
  * `src/unnamed/part_006` — `WorldState`
  * `src/unnamed/part_000` — entity data structures
  * `src/advanced-story-engine/src/core/EntityManager.js`
  * `src/unnamed/part_007` — `ValidationSystem`
  * `src/advanced-story-engine/src/systems/CreationSystem.js`
  * `src/unnamed/part_002` — `StoryEngine.loadGame` / `validateSaveFile` / `restoreGameState`

Modelling conventions:
  * JavaScript numbers are embedded as `ℚ` (all arithmetic in the embedded code
    is exact on the inputs the claims touch; no float rounding is involved).
  * A JavaScript object used as a string-keyed dictionary is an association
    list `JsObj α` in property-insertion order; `Map` has the same embedding
    (`Object.fromEntries`, `Object.entries`, `Array.from(map.entries())` and
    `new Map(entries)` all preserve entry order, so both sides are lists of
    key/value pairs).
  * A possibly-`undefined` value is an `Option`; `x || default` on numbers and
    strings also replaces the falsy values `0` resp. `""` (helpers `jsOrNum`,
    `jsOrStr`), while on arrays and objects only `undefined` is falsy
    (`Option.getD`).  Interpolating `undefined` into a template literal yields
    the string `"undefined"` (`jsShow`).
  * `new Date().toISOString()` / `Date.now()` are threaded as explicit `now` /
    `nowMs` arguments; `Math.random()` (rumor accuracy) as an explicit `acc`
    argument.  Neither influences any claim.
  * Thrown exceptions are `Except JsErr`; a `try/catch` is a `match`.
  * Record fields that no embedded operation and no claim ever reads
    (purely-descriptive strings such as `backstory`, `atmosphere`, …) are
    omitted from the entity records; every field that any embedded code path
    reads or writes is present.
-/

/-- JavaScript runtime errors: `TypeError` for property access on `undefined`,
`Error`/`AppError` carrying a message. -/
inductive JsErr where
  | typeError (msg : String) : JsErr
  | error (msg : String) : JsErr
  deriving Repr, DecidableEq

/-- A JavaScript object viewed as a dictionary in property-insertion order. -/
abbrev JsObj (α : Type) := List (String × α)

namespace JsObj

/-- Property lookup (`obj[key]`, `map.get(key)`): first binding wins. -/
def get (o : JsObj α) (k : String) : Option α :=
  match o with
  | [] => none
  | (k', v) :: rest => if k' = k then some v else get rest k

/-- `obj.hasOwnProperty(key)` / `map.has(key)`. -/
def hasKey (o : JsObj α) (k : String) : Bool :=
  (o.get k).isSome

/-- Property write (`obj[key] = v`, `map.set(key, v)`): updates an existing
binding in place, otherwise appends a new one. -/
def set (o : JsObj α) (k : String) (v : α) : JsObj α :=
  match o with
  | [] => [(k, v)]
  | (k', v') :: rest => if k' = k then (k', v) :: rest else (k', v') :: set rest k v

/-- `Object.values(obj)`. -/
def values (o : JsObj α) : List α := o.map Prod.snd

/-- `Object.keys(obj)`. -/
def keys (o : JsObj α) : List String := o.map Prod.fst

/-- `Object.fromEntries(entries)`: rebuilds an object from an entry list.
Later duplicate keys would win in JavaScript; none of the embedded values
contain duplicate keys, where the rebuild is entry-by-entry identity. -/
def fromEntries (o : JsObj α) : JsObj α := o.map (fun kv => (kv.1, kv.2))

theorem get_set_self (o : JsObj α) (k : String) (v : α) : (o.set k v).get k = some v := by
  induction o with
  | nil => simp [set, get]
  | cons kv rest ih =>
    by_cases h : kv.1 = k
    · simp [set, get, h]
    · simp [set, get, h, ih]

theorem get_set_ne (o : JsObj α) (k k' : String) (v : α) (h : k ≠ k') :
    (o.set k v).get k' = o.get k' := by
  induction o with
  | nil => simp [set, get, h]
  | cons kv rest ih =>
    by_cases hk : kv.1 = k
    · simp [set, get, hk, h]
    · by_cases hk' : kv.1 = k'
      · simp [set, get, hk, hk', Ne.symm h]
      · simp [set, get, hk, hk', ih]

theorem fromEntries_eq (o : JsObj α) : o.fromEntries = o := by
  induction o with
  | nil => rfl
  | cons kv rest ih => simp [fromEntries] at ih ⊢

end JsObj

/-- `x || default` for a possibly-absent JavaScript number: `undefined` and the
falsy number `0` both fall back to the default. -/
def jsOrNum (x : Option ℚ) (d : ℚ) : ℚ :=
  match x with
  | none => d
  | some v => if v = 0 then d else v

/-- `x || default` for a possibly-absent JavaScript string: `undefined` and the
falsy string `""` both fall back to the default. -/
def jsOrStr (x : Option String) (d : String) : String :=
  match x with
  | none => d
  | some v => if v = "" then d else v

/-- `x || false` for a possibly-absent JavaScript boolean. -/
def jsOrBool (x : Option Bool) (d : Bool) : Bool :=
  match x with
  | none => d
  | some v => if v then v else d

/-- `x || null` for a possibly-absent string: the falsy `""` also becomes `null`. -/
def jsStrOrNull (x : Option String) : Option String :=
  match x with
  | none => none
  | some v => if v = "" then none else some v

/-- Template-literal interpolation of a possibly-`undefined` string. -/
def jsShow (x : Option String) : String := x.getD "undefined"

/-- Truthiness of a possibly-absent string (`if (x)`): absent and `""` are falsy. -/
def jsTruthyStr (x : Option String) : Bool :=
  match x with
  | none => false
  | some v => v ≠ ""

/-- `s.toUpperCase()` (ASCII; every embedded parameter name is ASCII). -/
def jsToUpperCase (s : String) : String := String.mk (s.data.map Char.toUpper)

/-- Truthiness of a possibly-absent number (`if (x)`): absent and `0` are falsy. -/
def jsTruthyNum (x : Option ℚ) : Bool :=
  match x with
  | none => false
  | some v => v ≠ 0

/-! ## Constants (`src/advanced-story-engine/src/utils/Constants.js`) -/

/-- A `{min, max, default}` bounds record (`RELATIONSHIP_TYPES` values and
`WORLD_PARAMETERS` values share this shape). `default` is a Lean keyword, so
the field is `dflt`. -/
structure Bounds where
  min : ℚ
  max : ℚ
  dflt : ℚ
  deriving Repr, DecidableEq

/-- `RELATIONSHIP_TYPES`: note the values are bounds *objects*, not strings. -/
def RELATIONSHIP_TYPES : JsObj Bounds :=
  [("TRUST", ⟨0, 100, 50⟩), ("FEAR", ⟨0, 100, 10⟩), ("RESPECT", ⟨0, 100, 50⟩),
   ("LOVE", ⟨0, 100, 0⟩), ("RIVALRY", ⟨0, 100, 0⟩), ("ALLIANCE", ⟨0, 100, 0⟩)]

/-- `WORLD_PARAMETERS`. -/
def WORLD_PARAMETERS : JsObj Bounds :=
  [("GLOBAL_TENSION", ⟨0, 100, 30⟩), ("POLITICAL_STABILITY", ⟨0, 100, 80⟩),
   ("ECONOMIC_STATE", ⟨0, 100, 50⟩), ("MAGICAL_ACTIVITY", ⟨0, 100, 20⟩)]

/-- `VALIDATION_RULES`. -/
def MAX_NPCS_PER_LOCATION : ℕ := 15
def MAX_FACTIONS_PER_TERRITORY : ℕ := 3
def MAX_ACTIVE_EVENTS : ℕ := 10

/-- `ENTITY_TYPES`: the five entity kinds. -/
inductive EntityType where
  | npc | faction | location | item | event
  deriving Repr, DecidableEq

/-- The string value of an entity kind (`ENTITY_TYPES.NPC = 'npc'`, …). -/
def EntityType.str : EntityType → String
  | .npc => "npc"
  | .faction => "faction"
  | .location => "location"
  | .item => "item"
  | .event => "event"

/-! ## Relationship graph data model -/

/-- An entry of an edge's own `history` array.  The enhanced `setRelationship`
pushes `{timestamp, type, strength, reason}`; callers of the core version may
supply entries of the same shape via `relationshipData.history`. -/
structure RelHistEntry where
  timestamp : String
  type : String
  strength : ℚ
  reason : String
  deriving Repr, DecidableEq

/-- A directed relationship edge
`{type, strength, reason, established, lastModified, history[]}`. -/
structure Relationship where
  type : String
  strength : ℚ
  reason : String
  established : String
  lastModified : String
  history : List RelHistEntry
  deriving Repr, DecidableEq

/-- The `relationshipData` argument of `setRelationship`: a plain object whose
properties may each be absent. -/
structure RelationshipData where
  type : Option String := none
  strength : Option ℚ := none
  reason : Option String := none
  established : Option String := none
  history : Option (List RelHistEntry) := none
  deriving Repr, DecidableEq

/-- An entry of the global `relationshipHistory` ledger pushed by
`setRelationship` (`{entity1, entity2, action, relationship, timestamp}`). -/
structure LedgerEntry where
  entity1 : String
  entity2 : String
  action : String
  relationship : Relationship
  timestamp : String
  deriving Repr, DecidableEq

/-- A change entry of a player standing's history
(`{amount, reason, timestamp, previousValue}`). -/
structure StandingChange where
  amount : ℚ
  reason : String
  timestamp : String
  previousValue : ℚ
  deriving Repr, DecidableEq

/-- A player-standing record
(`{value, history[], lastChange, established}`). -/
structure Standing where
  value : ℚ
  history : List StandingChange
  lastChange : Option StandingChange
  established : String
  deriving Repr, DecidableEq

/-- The `standing` argument of `setPlayerStanding`. -/
structure StandingData where
  value : Option ℚ := none
  history : Option (List StandingChange) := none
  lastChange : Option StandingChange := none
  established : Option String := none
  deriving Repr, DecidableEq

/-- The relationship graph state: `relationships` is the
`entityId -> Map(targetEntityId -> relationship)` map of maps. -/
structure RelationshipGraph where
  relationships : JsObj (JsObj Relationship)
  playerStandings : JsObj Standing
  relationshipHistory : List LedgerEntry
  deriving Repr, DecidableEq

/-- The `RelationshipGraph` constructor. -/
def RelationshipGraph.init : RelationshipGraph :=
  { relationships := [], playerStandings := [], relationshipHistory := [] }

namespace Core

/-- `RelationshipGraph.getRelationship` of
`src/core/RelationshipGraph.js` (a stored relationship object is truthy, so
`… || null` is absence of the binding). -/
def getRelationship (g : RelationshipGraph) (entity1Id entity2Id : String) :
    Option Relationship :=
  match g.relationships.get entity1Id with
  | some inner => inner.get entity2Id
  | none => none

/-- `RelationshipGraph.setRelationship` of
`src/core/RelationshipGraph.js` lines 10–36: builds the relationship with
`||`-defaults, overwrites any existing edge, and always pushes an
`'established'` ledger entry. -/
def setRelationship (g : RelationshipGraph) (entity1Id entity2Id : String)
    (relationshipData : RelationshipData) (now : String) :
    Relationship × RelationshipGraph :=
  let rels :=
    if g.relationships.hasKey entity1Id then g.relationships
    else g.relationships.set entity1Id []
  let relationship : Relationship :=
    { type := jsOrStr relationshipData.type "neutral"
      strength := jsOrNum relationshipData.strength 50
      reason := jsOrStr relationshipData.reason ""
      established := jsOrStr relationshipData.established now
      lastModified := now
      history := relationshipData.history.getD [] }
  let inner := (rels.get entity1Id).getD []
  let rels' := rels.set entity1Id (inner.set entity2Id relationship)
  let ledger := g.relationshipHistory ++
    [{ entity1 := entity1Id, entity2 := entity2Id, action := "established",
       relationship := relationship, timestamp := now }]
  (relationship, { g with relationships := rels', relationshipHistory := ledger })

/-- `RelationshipGraph.setPlayerStanding`. -/
def setPlayerStanding (g : RelationshipGraph) (entityId : String)
    (standing : StandingData) (now : String) : RelationshipGraph :=
  let st : Standing :=
    { value := jsOrNum standing.value 0
      history := standing.history.getD []
      lastChange := standing.lastChange
      established := jsOrStr standing.established now }
  { g with playerStandings := g.playerStandings.set entityId st }

/-- `RelationshipGraph.calculateRelationshipStrength` lines 124–145: direct
edge wins; otherwise fold over the source's outgoing edges accumulating
`(strength1 * strength2) / 100` for each intermediary that has an edge to the
target, and average. -/
def calculateRelationshipStrength (g : RelationshipGraph)
    (entity1Id entity2Id : String) : ℚ :=
  match getRelationship g entity1Id entity2Id with
  | some directRelationship => directRelationship.strength
  | none =>
    match g.relationships.get entity1Id with
    | none => 0
    | some edges =>
      let acc := edges.foldl
        (fun (acc : ℚ × ℕ) (kv : String × Relationship) =>
          match getRelationship g kv.1 entity2Id with
          | some relationship2 =>
            (acc.1 + kv.2.strength * relationship2.strength / 100, acc.2 + 1)
          | none => acc)
        (0, 0)
      if acc.2 > 0 then acc.1 / (acc.2 : ℚ) else 0

/-- The shape of `exportRelationships()`'s result. -/
structure RelExport where
  relationships : JsObj (JsObj Relationship)
  playerStandings : JsObj Standing
  relationshipHistory : List LedgerEntry
  timestamp : String
  deriving Repr, DecidableEq

/-- `RelationshipGraph.exportRelationships` lines 231–243: maps the map of
maps through `Object.fromEntries` and keeps the most recent 100 ledger
entries (`slice(-100)`). -/
def exportRelationships (g : RelationshipGraph) (now : String) : RelExport :=
  { relationships :=
      JsObj.fromEntries (g.relationships.map (fun kv => (kv.1, JsObj.fromEntries kv.2)))
    playerStandings := JsObj.fromEntries g.playerStandings
    relationshipHistory :=
      g.relationshipHistory.drop (g.relationshipHistory.length - 100)
    timestamp := now }

/-- The `data` argument of `importRelationships` (each section may be absent). -/
structure RelImportData where
  relationships : Option (JsObj (JsObj Relationship)) := none
  playerStandings : Option (JsObj Standing) := none
  relationshipHistory : Option (List LedgerEntry) := none
  deriving Repr, DecidableEq

/-- `new Map(Object.entries(obj))`. -/
def mapFromEntries (o : JsObj α) : JsObj α := o.map (fun kv => (kv.1, kv.2))

theorem mapFromEntries_eq (o : JsObj α) : mapFromEntries o = o := by
  induction o with
  | nil => rfl
  | cons kv rest ih => simp [mapFromEntries] at ih ⊢

/-- `RelationshipGraph.importRelationships` lines 245–257: rebuilds the maps
from the exported objects. -/
def importRelationships (g : RelationshipGraph) (data : RelImportData) :
    RelationshipGraph :=
  let rels : JsObj (JsObj Relationship) :=
    match data.relationships with
    | some o => o.map (fun kv => (kv.1, mapFromEntries kv.2))
    | none => []
  { g with
    relationships := rels
    playerStandings := mapFromEntries (data.playerStandings.getD [])
    relationshipHistory := data.relationshipHistory.getD [] }

/-- `RelExport` reshaped as an `importRelationships` argument. -/
def RelExport.toImportData (e : RelExport) : RelImportData :=
  { relationships := some e.relationships
    playerStandings := some e.playerStandings
    relationshipHistory := some e.relationshipHistory }

end Core

namespace Enhanced

/-- `Object.values(RELATIONSHIP_TYPES).includes(type)` in
`src/unnamed/part_004` line 73: `includes` compares with SameValueZero, and a
bounds *object* is never equal to a *string*, so the membership test is false
for every element. -/
def valuesIncludesString (vals : List Bounds) (_type : String) : Bool :=
  vals.any (fun _ => false)

/-- `RelationshipGraph.setRelationship` of `src/unnamed/part_004` lines
55–159: validates ids, self-reference, relationship type and strength range
(throwing `AppError`s), then stores a clamped relationship, preserving an
existing edge's history and logging `'updated'` vs `'established'` in the
ledger trimmed to its most recent 1000 entries.  Destructuring defaults
(`{type = 'neutral', strength = 50, …}`) replace only `undefined`, not falsy
values. -/
def setRelationship (g : RelationshipGraph) (entity1Id entity2Id : String)
    (relationshipData : RelationshipData) (now : String) :
    Except JsErr (Relationship × RelationshipGraph) :=
  if entity1Id.trim = "" then
    .error (.error "entity1Id must be a non-empty string")
  else if entity2Id.trim = "" then
    .error (.error "entity2Id must be a non-empty string")
  else if entity1Id = entity2Id then
    .error (.error "Cannot create a relationship between an entity and itself")
  else
    let type := relationshipData.type.getD "neutral"
    let strength := relationshipData.strength.getD 50
    let reason := relationshipData.reason.getD ""
    if ¬ valuesIncludesString RELATIONSHIP_TYPES.values type then
      .error (.error ("Invalid relationship type: " ++ type))
    else if strength < 0 ∨ strength > 100 then
      .error (.error "Relationship strength must be a number between 0 and 100")
    else
      let rels :=
        if g.relationships.hasKey entity1Id then g.relationships
        else g.relationships.set entity1Id []
      let existingRelationship := (rels.get entity1Id).getD [] |>.get entity2Id
      let baseHistory :=
        match existingRelationship with
        | some er => er.history
        | none => []
      let relationship : Relationship :=
        { type := type
          strength := max 0 (min 100 strength)
          reason := jsOrStr (some reason) ""
          established := jsOrStr relationshipData.established now
          lastModified := now
          history := baseHistory ++
            [{ timestamp := now, type := type, strength := strength,
               reason := jsOrStr (some reason) "Relationship updated" }] }
      let inner := (rels.get entity1Id).getD []
      let rels1 := rels.set entity1Id (inner.set entity2Id relationship)
      let rels2 :=
        if rels1.hasKey entity2Id then rels1 else rels1.set entity2Id []
      let ledger := g.relationshipHistory ++
        [{ entity1 := entity1Id, entity2 := entity2Id,
           action := if existingRelationship.isSome then "updated" else "established",
           relationship := relationship, timestamp := now }]
      let ledger := ledger.drop (ledger.length - 1000)
      .ok (relationship,
        { g with relationships := rels2, relationshipHistory := ledger })

/-- Every call to the enhanced `setRelationship` fails: the relationship-type
check compares the string `type` against the `{min, max, default}` objects of
`RELATIONSHIP_TYPES`, which never match. -/
theorem setRelationship_always_err (g : RelationshipGraph)
    (entity1Id entity2Id : String) (relationshipData : RelationshipData)
    (now : String) :
    (setRelationship g entity1Id entity2Id relationshipData now).isOk = false := by
  unfold setRelationship
  by_cases h1 : entity1Id.trim = ""
  · simp [h1, Except.isOk, Except.toBool]
  · by_cases h2 : entity2Id.trim = ""
    · simp [h1, h2, Except.isOk, Except.toBool]
    · by_cases h3 : entity1Id = entity2Id
      · simp [h1, h2, h3, Except.isOk, Except.toBool]
      · simp [h1, h2, h3, valuesIncludesString, Except.isOk, Except.toBool]

end Enhanced

/-! ## World state (`src/unnamed/part_006`) -/

/-- The temporal clock record. -/
structure Temporal where
  timeOfDay : String
  season : String
  weather : String
  day : ℚ
  month : String
  year : ℚ
  deriving Repr, DecidableEq

/-- A world event as built by `WorldState.addEvent`. -/
structure WSEvent where
  id : String
  name : Option String
  type : String
  scope : String
  duration : String
  startTime : String
  endTime : Option String
  participants : List String
  consequences : List String
  description : String
  status : String
  deriving Repr, DecidableEq

/-- The `events` partition (`current/completed/failed/scheduled`). -/
structure EventsRec where
  current : List WSEvent
  completed : List WSEvent
  failed : List WSEvent
  scheduled : List WSEvent
  deriving Repr, DecidableEq

/-- A rumor-mill entry (`{content, spread, accuracy, timestamp}`). -/
structure Rumor where
  content : String
  spread : ℚ
  accuracy : ℚ
  timestamp : String
  deriving Repr, DecidableEq

/-- A news entry (`{content, importance, timestamp}`). -/
structure NewsItem where
  content : String
  importance : String
  timestamp : String
  deriving Repr, DecidableEq

/-- The `information` record. -/
structure InfoRec where
  rumorMill : List Rumor
  news : List NewsItem
  secrets : List String
  prophecies : List String
  deriving Repr, DecidableEq

/-- An entry of `history.worldChanges` (heterogeneous in the source; the
embedded operations push these three shapes). -/
inductive WorldChange where
  | parameterChange (parameter : String) (oldValue newValue change : ℚ)
      (reason : String) (timestamp : String) : WorldChange
  | eventAdded (event : WSEvent) (timestamp : String) : WorldChange
  | eventCompleted (event : WSEvent) (success : Bool) (timestamp : String) : WorldChange
  deriving Repr, DecidableEq

/-- The `history` record. -/
structure WSHistory where
  majorEvents : List String
  decisiveChoices : List String
  worldChanges : List WorldChange
  deriving Repr, DecidableEq

/-- The `WorldState` store. -/
structure WorldState where
  globalParameters : JsObj ℚ
  temporal : Temporal
  events : EventsRec
  information : InfoRec
  history : WSHistory
  deriving Repr, DecidableEq

/-- The `WorldState` constructor: parameters initialised from the
`WORLD_PARAMETERS` defaults. -/
def WorldState.init : WorldState :=
  { globalParameters :=
      [("tension", 30), ("politicalStability", 80), ("economicState", 50),
       ("magicalActivity", 20)]
    temporal := { timeOfDay := "morning", season := "spring", weather := "clear",
                  day := 1, month := "firstmonth", year := 1000 }
    events := { current := [], completed := [], failed := [], scheduled := [] }
    information := { rumorMill := [], news := [], secrets := [], prophecies := [] }
    history := { majorEvents := [], decisiveChoices := [], worldChanges := [] } }

/-- `WorldState.recordWorldChange` lines 252–259: append, keep the most
recent 100. -/
def WorldState.recordWorldChange (ws : WorldState) (change : WorldChange) :
    WorldState :=
  let changes := ws.history.worldChanges ++ [change]
  let changes := changes.drop (changes.length - 100)
  { ws with history := { ws.history with worldChanges := changes } }

/-- `WorldState.updateGlobalParameter` lines 42–66.  The bounds are looked up
as `WORLD_PARAMETERS[parameter.toUpperCase()]`; when that key is absent (the
constant keys are `GLOBAL_TENSION`, `POLITICAL_STABILITY`, `ECONOMIC_STATE`,
`MAGICAL_ACTIVITY`) the subsequent `bounds.min` access throws a `TypeError`. -/
def WorldState.updateGlobalParameter (ws : WorldState) (parameter : String)
    (change : ℚ) (reason : String) (now : String) :
    Except JsErr (ℚ × WorldState) :=
  match ws.globalParameters.get parameter with
  | some oldValue =>
    match WORLD_PARAMETERS.get (jsToUpperCase parameter) with
    | none => .error (.typeError "Cannot read properties of undefined (reading 'min')")
    | some bounds =>
      let newValue := max bounds.min (min bounds.max (oldValue + change))
      let ws := { ws with globalParameters := ws.globalParameters.set parameter newValue }
      let ws := ws.recordWorldChange
        (.parameterChange parameter oldValue newValue change reason now)
      .ok (newValue, ws)
  | none => .error (.error ("Unknown global parameter: " ++ parameter))

/-- The `eventData` argument of `addEvent` (fields as possibly-absent). -/
structure EventData where
  id : Option String := none
  name : Option String := none
  type : Option String := none
  scope : Option String := none
  duration : Option String := none
  startTime : Option String := none
  endTime : Option String := none
  participants : Option (List String) := none
  consequences : Option (List String) := none
  description : Option String := none
  deriving Repr, DecidableEq

/-- `WorldState.addEvent` lines 147–171 (`Date.now()` is the explicit
`nowMs`). -/
def WorldState.addEvent (ws : WorldState) (eventData : EventData)
    (now : String) (nowMs : ℕ) : WSEvent × WorldState :=
  let event : WSEvent :=
    { id := jsOrStr eventData.id ("event_" ++ toString nowMs)
      name := eventData.name
      type := jsOrStr eventData.type "social"
      scope := jsOrStr eventData.scope "local"
      duration := jsOrStr eventData.duration "ongoing"
      startTime := jsOrStr eventData.startTime now
      endTime := eventData.endTime
      participants := eventData.participants.getD []
      consequences := eventData.consequences.getD []
      description := jsOrStr eventData.description ""
      status := "active" }
  let ws := { ws with events := { ws.events with current := ws.events.current ++ [event] } }
  let ws := ws.recordWorldChange (.eventAdded event now)
  (event, ws)

/-- `WorldState.addRumor` lines 199–211 (`Math.random() * 100` is the explicit
`accuracy`); the rumor mill keeps its most recent 15 entries. -/
def WorldState.addRumor (ws : WorldState) (rumor : String) (accuracy : ℚ)
    (now : String) : WorldState :=
  let mill := ws.information.rumorMill ++
    [{ content := rumor, spread := 1, accuracy := accuracy, timestamp := now }]
  let mill := mill.drop (mill.length - 15)
  { ws with information := { ws.information with rumorMill := mill } }

/-- `WorldState.addNews` lines 219–230: `unshift` then keep the first 20. -/
def WorldState.addNews (ws : WorldState) (newsItem : String) (now : String) :
    WorldState :=
  let news : List NewsItem :=
    { content := newsItem, importance := "medium", timestamp := now } :: ws.information.news
  let news := news.take 20
  { ws with information := { ws.information with news := news } }

/-- The shape of `exportWorldState()`'s result. -/
structure WorldExport where
  globalParameters : JsObj ℚ
  temporal : Temporal
  events : EventsRec
  information : InfoRec
  history : WSHistory
  timestamp : String
  deriving Repr, DecidableEq

/-- `WorldState.exportWorldState` lines 320–333: history bounded
(`decisiveChoices.slice(-20)`, `worldChanges.slice(-50)`). -/
def WorldState.exportWorldState (ws : WorldState) (now : String) : WorldExport :=
  { globalParameters := ws.globalParameters
    temporal := ws.temporal
    events := ws.events
    information := ws.information
    history :=
      { majorEvents := ws.history.majorEvents
        decisiveChoices :=
          ws.history.decisiveChoices.drop (ws.history.decisiveChoices.length - 20)
        worldChanges :=
          ws.history.worldChanges.drop (ws.history.worldChanges.length - 50) }
    timestamp := now }

/-- The `data` argument of `importWorldState` (each section may be absent). -/
structure WorldImportData where
  globalParameters : Option (JsObj ℚ) := none
  temporal : Option Temporal := none
  events : Option EventsRec := none
  information : Option InfoRec := none
  history : Option WSHistory := none
  deriving Repr, DecidableEq

/-- `WorldState.importWorldState` lines 335–341 (`data.x || this.x`; every
present section is an object, hence truthy). -/
def WorldState.importWorldState (ws : WorldState) (data : WorldImportData) :
    WorldState :=
  { globalParameters := data.globalParameters.getD ws.globalParameters
    temporal := data.temporal.getD ws.temporal
    events := data.events.getD ws.events
    information := data.information.getD ws.information
    history := data.history.getD ws.history }

/-- `WorldExport` reshaped as an `importWorldState` argument. -/
def WorldExport.toImportData (e : WorldExport) : WorldImportData :=
  { globalParameters := some e.globalParameters
    temporal := some e.temporal
    events := some e.events
    information := some e.information
    history := some e.history }

/-! ## Entity data structures (`src/unnamed/part_000`) and the entity store
(`src/advanced-story-engine/src/core/EntityManager.js`) -/

/-- The untyped `data` bag passed to entity constructors, validators and the
creation pipeline: one record of possibly-absent properties (the union of the
properties the embedded code reads).  `wealth` is used as a number by the
`Faction` constructor; the `Location` constructor's string use of the same
dynamic property is not read by any embedded operation. -/
structure EntityData where
  id : Option String := none
  name : Option String := none
  occupation : Option String := none
  age : Option ℚ := none
  location : Option String := none
  trust : Option ℚ := none
  fear : Option ℚ := none
  respect : Option ℚ := none
  love : Option ℚ := none
  met : Option Bool := none
  alive : Option Bool := none
  health : Option ℚ := none
  type : Option String := none
  influence : Option ℚ := none
  wealth : Option ℚ := none
  militaryPower : Option ℚ := none
  territory : Option (List String) := none
  allies : Option (List String) := none
  enemies : Option (List String) := none
  leadership : Option (List String) := none
  safety : Option ℚ := none
  population : Option ℚ := none
  visited : Option Bool := none
  connectedTo : Option (List String) := none
  controlledBy : Option String := none
  value : Option ℚ := none
  weight : Option ℚ := none
  durability : Option ℚ := none
  rarity : Option String := none
  scope : Option String := none
  duration : Option String := none
  participants : Option (List String) := none
  completed : Option Bool := none
  startTime : Option String := none
  endTime : Option String := none
  consequences : Option (List String) := none
  description : Option String := none
  deriving Repr, DecidableEq

/-- `class NPC extends Entity` (fields read by embedded operations). -/
structure NPC where
  id : String
  created : String
  lastModified : String
  name : String
  occupation : String
  age : ℚ
  location : Option String
  trust : ℚ
  fear : ℚ
  respect : ℚ
  love : ℚ
  met : Bool
  alive : Bool
  health : ℚ
  deriving Repr, DecidableEq

/-- The `NPC` constructor with its `||` defaults
(`trust/fear/respect/love` default to the `RELATIONSHIP_TYPES` defaults;
`alive = data.alive !== false`). -/
def NPC.make (id : String) (data : EntityData) (now : String) : NPC :=
  { id := id, created := now, lastModified := now
    name := jsOrStr data.name "Unknown"
    occupation := jsOrStr data.occupation "unknown"
    age := jsOrNum data.age 30
    location := jsStrOrNull data.location
    trust := jsOrNum data.trust 50
    fear := jsOrNum data.fear 10
    respect := jsOrNum data.respect 50
    love := jsOrNum data.love 0
    met := jsOrBool data.met false
    alive := data.alive ≠ some false
    health := jsOrNum data.health 100 }

/-- `class Faction extends Entity` (fields read by embedded operations). -/
structure Faction where
  id : String
  created : String
  lastModified : String
  name : String
  type : String
  influence : ℚ
  wealth : ℚ
  militaryPower : ℚ
  territory : List String
  allies : List String
  enemies : List String
  leadership : List String
  deriving Repr, DecidableEq

/-- The `Faction` constructor with its `||` defaults. -/
def Faction.make (id : String) (data : EntityData) (now : String) : Faction :=
  { id := id, created := now, lastModified := now
    name := jsOrStr data.name "Unknown Faction"
    type := jsOrStr data.type "political"
    influence := jsOrNum data.influence 40
    wealth := jsOrNum data.wealth 50
    militaryPower := jsOrNum data.militaryPower 30
    territory := data.territory.getD []
    allies := data.allies.getD []
    enemies := data.enemies.getD []
    leadership := data.leadership.getD [] }

/-- `class Location extends Entity` (fields read by embedded operations). -/
structure Location where
  id : String
  created : String
  lastModified : String
  name : String
  type : String
  visited : Bool
  safety : ℚ
  connectedTo : List String
  controlledBy : Option String
  population : ℚ
  deriving Repr, DecidableEq

/-- The `Location` constructor with its `||` defaults. -/
def Location.make (id : String) (data : EntityData) (now : String) : Location :=
  { id := id, created := now, lastModified := now
    name := jsOrStr data.name "Unknown Location"
    type := jsOrStr data.type "settlement"
    visited := jsOrBool data.visited false
    safety := jsOrNum data.safety 70
    connectedTo := data.connectedTo.getD []
    controlledBy := jsStrOrNull data.controlledBy
    population := jsOrNum data.population 0 }

/-- `class Item extends Entity` (fields read by embedded operations). -/
structure Item where
  id : String
  created : String
  lastModified : String
  name : String
  type : String
  value : ℚ
  weight : ℚ
  durability : ℚ
  location : String
  rarity : String
  deriving Repr, DecidableEq

/-- The `Item` constructor with its `||` defaults. -/
def Item.make (id : String) (data : EntityData) (now : String) : Item :=
  { id := id, created := now, lastModified := now
    name := jsOrStr data.name "Unknown Item"
    type := jsOrStr data.type "misc"
    value := jsOrNum data.value 50
    weight := jsOrNum data.weight 1
    durability := jsOrNum data.durability 100
    location := jsOrStr data.location "world"
    rarity := jsOrStr data.rarity "common" }

/-- `class GameEvent extends Entity` (fields read by embedded operations). -/
structure GameEvent where
  id : String
  created : String
  lastModified : String
  name : String
  type : String
  scope : String
  duration : String
  participants : List String
  completed : Bool
  deriving Repr, DecidableEq

/-- The `GameEvent` constructor with its `||` defaults. -/
def GameEvent.make (id : String) (data : EntityData) (now : String) : GameEvent :=
  { id := id, created := now, lastModified := now
    name := jsOrStr data.name "Unknown Event"
    type := jsOrStr data.type "social"
    scope := jsOrStr data.scope "local"
    duration := jsOrStr data.duration "ongoing"
    participants := data.participants.getD []
    completed := jsOrBool data.completed false }

/-- A stored entity: one of the five variants. -/
inductive Entity where
  | npc (v : NPC) : Entity
  | faction (v : Faction) : Entity
  | location (v : Location) : Entity
  | item (v : Item) : Entity
  | event (v : GameEvent) : Entity
  deriving Repr, DecidableEq

/-- The per-kind entity stores (`this.entities`). -/
structure EntitiesRec where
  npc : JsObj NPC
  faction : JsObj Faction
  location : JsObj Location
  item : JsObj Item
  event : JsObj GameEvent
  deriving Repr, DecidableEq

/-- A per-kind creation-history record (`{id, created, data}`). -/
structure CreationRecord where
  id : String
  created : String
  data : EntityData
  deriving Repr, DecidableEq

/-- The per-kind creation histories (`this.creationHistory`). -/
structure CreationHistoryRec where
  npc : List CreationRecord
  faction : List CreationRecord
  location : List CreationRecord
  item : List CreationRecord
  event : List CreationRecord
  deriving Repr, DecidableEq

/-- The entity store. -/
structure EntityManager where
  entities : EntitiesRec
  creationHistory : CreationHistoryRec
  deriving Repr, DecidableEq

/-- The `EntityManager` constructor. -/
def EntityManager.init : EntityManager :=
  { entities := { npc := [], faction := [], location := [], item := [], event := [] }
    creationHistory := { npc := [], faction := [], location := [], item := [], event := [] } }

/-- `this.entities[type][id]` as an `Option` over the kind-indexed stores. -/
def EntityManager.lookup (em : EntityManager) (type : EntityType) (id : String) :
    Option Entity :=
  match type with
  | .npc => (em.entities.npc.get id).map Entity.npc
  | .faction => (em.entities.faction.get id).map Entity.faction
  | .location => (em.entities.location.get id).map Entity.location
  | .item => (em.entities.item.get id).map Entity.item
  | .event => (em.entities.event.get id).map Entity.event

/-- Store an entity under `this.entities[type][id]` (the variant matches the
kind by construction in `createEntity`). -/
def EntityManager.store (em : EntityManager) (type : EntityType) (id : String)
    (e : Entity) : EntityManager :=
  match type, e with
  | .npc, .npc v => { em with entities := { em.entities with npc := em.entities.npc.set id v } }
  | .faction, .faction v => { em with entities := { em.entities with faction := em.entities.faction.set id v } }
  | .location, .location v => { em with entities := { em.entities with location := em.entities.location.set id v } }
  | .item, .item v => { em with entities := { em.entities with item := em.entities.item.set id v } }
  | .event, .event v => { em with entities := { em.entities with event := em.entities.event.set id v } }
  | _, _ => em

/-- Append a creation record to the kind's history. -/
def EntityManager.pushHistory (em : EntityManager) (type : EntityType)
    (record : CreationRecord) : EntityManager :=
  match type with
  | .npc => { em with creationHistory := { em.creationHistory with npc := em.creationHistory.npc ++ [record] } }
  | .faction => { em with creationHistory := { em.creationHistory with faction := em.creationHistory.faction ++ [record] } }
  | .location => { em with creationHistory := { em.creationHistory with location := em.creationHistory.location ++ [record] } }
  | .item => { em with creationHistory := { em.creationHistory with item := em.creationHistory.item ++ [record] } }
  | .event => { em with creationHistory := { em.creationHistory with event := em.creationHistory.event ++ [record] } }

/-- `EntityManager.createEntity` lines 23–57: throws when
`this.entities[type][id]` is already set (a stored entity object is truthy),
otherwise constructs the kind's entity, stores it and appends an audit
record. -/
def EntityManager.createEntity (em : EntityManager) (type : EntityType)
    (id : String) (data : EntityData) (now : String) :
    Except JsErr (Entity × EntityManager) :=
  if (em.lookup type id).isSome then
    .error (.error ("Entity " ++ id ++ " of type " ++ type.str ++ " already exists"))
  else
    let entity : Entity :=
      match type with
      | .npc => .npc (NPC.make id data now)
      | .faction => .faction (Faction.make id data now)
      | .location => .location (Location.make id data now)
      | .item => .item (Item.make id data now)
      | .event => .event (GameEvent.make id data now)
    let em := em.store type id entity
    let em := em.pushHistory type { id := id, created := now, data := data }
    .ok (entity, em)

/-- `EntityManager.getAllEntities(type)` restricted to the kinds the embedded
validators scan (`Object.values` of the kind's store). -/
def EntityManager.allNpcs (em : EntityManager) : List NPC := em.entities.npc.values
def EntityManager.allFactions (em : EntityManager) : List Faction := em.entities.faction.values
def EntityManager.allLocations (em : EntityManager) : List Location := em.entities.location.values

/-- The shape of `exportEntities()`'s result. -/
structure EntitiesExport where
  entities : EntitiesRec
  creationHistory : CreationHistoryRec
  timestamp : String
  deriving Repr, DecidableEq

/-- `EntityManager.exportEntities` lines 189–195. -/
def EntityManager.exportEntities (em : EntityManager) (now : String) : EntitiesExport :=
  { entities := em.entities, creationHistory := em.creationHistory, timestamp := now }

/-- The `data` argument of `importEntities` (each section may be absent). -/
structure EntitiesImportData where
  entities : Option EntitiesRec := none
  creationHistory : Option CreationHistoryRec := none
  deriving Repr, DecidableEq

/-- `EntityManager.importEntities` lines 197–200 (`data.x || this.x`; a
present section is an object, hence truthy). -/
def EntityManager.importEntities (em : EntityManager) (data : EntitiesImportData) :
    EntityManager :=
  { entities := data.entities.getD em.entities
    creationHistory := data.creationHistory.getD em.creationHistory }

/-- `EntitiesExport` reshaped as an `importEntities` argument. -/
def EntitiesExport.toImportData (e : EntitiesExport) : EntitiesImportData :=
  { entities := some e.entities, creationHistory := some e.creationHistory }

/-! ## Validation system (`src/unnamed/part_007`) -/

/-- The read-only view the pipeline hands to validators
(`CreationSystem.getGameState()`): the live entity stores, the world state,
and the placeholder player state (`currentLocation: 'village_square'`). -/
structure GameStateView where
  entities : EntitiesRec
  worldState : WorldState
  playerCurrentLocation : String
  deriving Repr

/-- A validator result `{valid, warnings, requirements}`.  The source objects
carry no `reason` property, so reading `validation.reason` (as the creation
pipeline does) yields `undefined`; the `reason` field embeds that absent
property and is always `none` here.  The engine registers no custom
validators, so `runCustomValidators` is the identity and is folded away. -/
structure ValidationResult where
  valid : Bool
  warnings : List String
  requirements : List String
  reason : Option String := none
  deriving Repr, DecidableEq

/-- `ValidationSystem.checkOccupationLocationCompatibility`. -/
def occupationCompatibilityMap : JsObj (List String) :=
  [("merchant", ["settlement", "structure"]),
   ("guard", ["settlement", "structure"]),
   ("farmer", ["settlement", "wilderness"]),
   ("bandit", ["wilderness"]),
   ("scholar", ["settlement", "structure"]),
   ("noble", ["settlement", "structure"]),
   ("priest", ["settlement", "structure"]),
   ("hermit", ["wilderness", "landmark"]),
   ("blacksmith", ["settlement"]),
   ("tavern_keeper", ["settlement"]),
   ("soldier", ["settlement", "structure"]),
   ("mage", ["settlement", "structure", "landmark"]),
   ("thief", ["settlement", "wilderness"])]

/-- The result of the occupation/location compatibility check. -/
structure CompatResult where
  compatible : Bool
  reason : Option String := none
  deriving Repr, DecidableEq

/-- `checkOccupationLocationCompatibility(occupation, locationData)`. -/
def checkOccupationLocationCompatibility (occupation : String)
    (locationData : Location) : CompatResult :=
  let compatibleTypes := (occupationCompatibilityMap.get occupation).getD
    ["settlement", "wilderness", "structure", "landmark"]
  if compatibleTypes.contains locationData.type then
    { compatible := true }
  else
    { compatible := false,
      reason := some ("Occupation \"" ++ occupation ++
        "\" may not be suitable for location type \"" ++ locationData.type ++ "\"") }

/-- `ValidationSystem.validateNPCCreation` (part_007 lines 16–61): blocking
rules are location capacity and the age range; duplicate names and
occupation/location mismatches only append warnings. -/
def validateNPCCreation (npcData : EntityData) (gameState : GameStateView) :
    ValidationResult :=
  let capacityFail :=
    match npcData.location with
    | some l =>
      if l = "" then none
      else
        let locationNPCs := gameState.entities.npc.values.filter
          (fun npc => npc.location = some l)
        if locationNPCs.length ≥ MAX_NPCS_PER_LOCATION then
          some ("Location " ++ l ++ " has reached maximum NPC capacity (" ++
            toString MAX_NPCS_PER_LOCATION ++ ")")
        else none
    | none => none
  match capacityFail with
  | some w => { valid := false, warnings := [w], requirements := [] }
  | none =>
    let nameWarnings :=
      match npcData.name with
      | some n =>
        if gameState.entities.npc.values.any (fun npc => npc.name = n) then
          ["NPC with name \"" ++ n ++ "\" already exists"]
        else []
      | none => []
    match npcData.age with
    | some a =>
      if a < 1 ∨ a > 1000 then
        { valid := false,
          warnings := nameWarnings ++ ["NPC age must be between 1 and 1000"],
          requirements := [] }
      else
        let occWarnings :=
          if jsTruthyStr npcData.occupation ∧ jsTruthyStr npcData.location then
            match gameState.entities.location.get (npcData.location.getD "") with
            | some locationData =>
              let check := checkOccupationLocationCompatibility
                (npcData.occupation.getD "") locationData
              if check.compatible then [] else [jsShow check.reason]
            | none => []
          else []
        { valid := true, warnings := nameWarnings ++ occWarnings, requirements := [] }
    | none =>
      let occWarnings :=
        if jsTruthyStr npcData.occupation ∧ jsTruthyStr npcData.location then
          match gameState.entities.location.get (npcData.location.getD "") with
          | some locationData =>
            let check := checkOccupationLocationCompatibility
              (npcData.occupation.getD "") locationData
            if check.compatible then [] else [jsShow check.reason]
          | none => []
        else []
      { valid := true, warnings := nameWarnings ++ occWarnings, requirements := [] }

/-- The territory loop of `validateFactionCreation`: first territory already
controlled by `MAX_FACTIONS_PER_TERRITORY` factions, if any. -/
def factionTerritoryFail (factions : List Faction) : List String → Option String
  | [] => none
  | territoryId :: rest =>
    let controllingFactions := factions.filter
      (fun faction => faction.territory.contains territoryId)
    if controllingFactions.length ≥ MAX_FACTIONS_PER_TERRITORY then
      some ("Territory " ++ territoryId ++ " has reached maximum faction control (" ++
        toString MAX_FACTIONS_PER_TERRITORY ++ ")")
    else factionTerritoryFail factions rest

/-- `ValidationSystem.validateFactionCreation` (part_007 lines 63–117):
blocking rules are territory capacity, the influence range and
ally/enemy overlap; duplicate names and unknown leadership only warn. -/
def validateFactionCreation (factionData : EntityData) (gameState : GameStateView) :
    ValidationResult :=
  match factionData.territory.bind (factionTerritoryFail gameState.entities.faction.values) with
  | some w => { valid := false, warnings := [w], requirements := [] }
  | none =>
    let nameWarnings :=
      match factionData.name with
      | some n =>
        if gameState.entities.faction.values.any (fun faction => faction.name = n) then
          ["Faction with name \"" ++ n ++ "\" already exists"]
        else []
      | none => []
    match factionData.influence with
    | some i =>
      if i < 0 ∨ i > 100 then
        { valid := false,
          warnings := nameWarnings ++ ["Faction influence must be between 0 and 100"],
          requirements := [] }
      else
        validateFactionCreationRest factionData gameState nameWarnings
    | none => validateFactionCreationRest factionData gameState nameWarnings
where
  /-- Leadership warnings and the ally/enemy-overlap rule (the tail of the
  validator after the influence check). -/
  validateFactionCreationRest (factionData : EntityData)
      (gameState : GameStateView) (nameWarnings : List String) : ValidationResult :=
    let leadershipWarnings :=
      (factionData.leadership.getD []).filterMap (fun leaderId =>
        if (gameState.entities.npc.get leaderId).isSome then none
        else some ("Leadership NPC " ++ leaderId ++ " does not exist"))
    match factionData.allies, factionData.enemies with
    | some allies, some enemies =>
      let overlap := allies.filter (fun ally => enemies.contains ally)
      if overlap ≠ [] then
        { valid := false,
          warnings := nameWarnings ++ leadershipWarnings ++
            ["Factions cannot be both allies and enemies: " ++
              String.intercalate ", " overlap],
          requirements := [] }
      else
        { valid := true, warnings := nameWarnings ++ leadershipWarnings,
          requirements := [] }
    | _, _ =>
      { valid := true, warnings := nameWarnings ++ leadershipWarnings,
        requirements := [] }

/-- The per-type population bands of `validateLocationCreation`. -/
def populationLimits : JsObj (ℚ × ℚ) :=
  [("settlement", (10, 10000)), ("wilderness", (0, 50)), ("structure", (0, 100)),
   ("landmark", (0, 200)), ("dungeon", (0, 500))]

/-- `ValidationSystem.validateLocationCreation` (part_007 lines 119–172):
blocking rules are the safety range and negative population; unrealistic
population, unknown connections and an unknown controlling faction only
warn. -/
def validateLocationCreation (locationData : EntityData) (gameState : GameStateView) :
    ValidationResult :=
  let safetyFail : Bool :=
    match locationData.safety with
    | some s => decide (s < 0 ∨ s > 100)
    | none => false
  if safetyFail then
    { valid := false, warnings := ["Location safety must be between 0 and 100"],
      requirements := [] }
  else
    match locationData.population with
    | some p =>
      if p < 0 then
        { valid := false, warnings := ["Location population cannot be negative"],
          requirements := [] }
      else
        let popWarnings :=
          match locationData.type.bind populationLimits.get with
          | some limits =>
            if p < limits.1 ∨ p > limits.2 then
              ["Population may be unrealistic for this location type"]
            else []
          | none => []
        validateLocationCreationRest locationData gameState popWarnings
    | none => validateLocationCreationRest locationData gameState []
where
  /-- Connection and controlling-faction warnings (the tail of the validator). -/
  validateLocationCreationRest (locationData : EntityData)
      (gameState : GameStateView) (popWarnings : List String) : ValidationResult :=
    let connectionWarnings :=
      (locationData.connectedTo.getD []).filterMap (fun connectionId =>
        if (gameState.entities.location.get connectionId).isSome then none
        else some ("Connected location " ++ connectionId ++ " does not exist"))
    let controlWarnings :=
      if jsTruthyStr locationData.controlledBy then
        if (gameState.entities.faction.get (locationData.controlledBy.getD "")).isSome then []
        else ["Controlling faction " ++ jsShow locationData.controlledBy ++ " does not exist"]
      else []
    { valid := true,
      warnings := popWarnings ++ connectionWarnings ++ controlWarnings,
      requirements := [] }

/-- The rarity/value bands of `validateItemCreation`. -/
def rarityValueRanges : JsObj (ℚ × ℚ) :=
  [("common", (1, 100)), ("uncommon", (50, 500)), ("rare", (200, 2000)),
   ("epic", (1000, 10000)), ("legendary", (5000, 100000))]

/-- `ValidationSystem.validateItemCreation` (part_007 lines 174–233):
blocking rules are negative value, negative weight and the durability range;
high value, rarity/value mismatch and an unknown location only warn. -/
def validateItemCreation (itemData : EntityData) (gameState : GameStateView) :
    ValidationResult :=
  match itemData.value with
  | some v =>
    if v < 0 then
      { valid := false, warnings := ["Item value cannot be negative"], requirements := [] }
    else
      let valueWarnings :=
        if v > 100000 then
          ["Item value seems extremely high - may affect game balance"]
        else []
      validateItemCreationAfterValue itemData gameState valueWarnings
  | none => validateItemCreationAfterValue itemData gameState []
where
  /-- The weight/durability checks and remaining warnings. -/
  validateItemCreationAfterValue (itemData : EntityData)
      (gameState : GameStateView) (valueWarnings : List String) : ValidationResult :=
    let weightFail : Bool :=
      match itemData.weight with
      | some w => decide (w < 0)
      | none => false
    if weightFail then
      { valid := false, warnings := valueWarnings ++ ["Item weight cannot be negative"],
        requirements := [] }
    else
      let durabilityFail : Bool :=
        match itemData.durability with
        | some d => decide (d < 0 ∨ d > 100)
        | none => false
      if durabilityFail then
        { valid := false,
          warnings := valueWarnings ++ ["Item durability must be between 0 and 100"],
          requirements := [] }
      else
        let rarityWarnings :=
          if jsTruthyStr itemData.rarity then
            match itemData.value, (rarityValueRanges.get (itemData.rarity.getD "")) with
            | some v, some range =>
              if v < range.1 ∨ v > range.2 then
                ["Item value may not match rarity"]
              else []
            | _, _ => []
          else []
        let locationWarnings :=
          if jsTruthyStr itemData.location ∧
              itemData.location ≠ some "player_inventory" ∧
              itemData.location ≠ some "world" then
            if (gameState.entities.location.get (itemData.location.getD "")).isSome then []
            else ["Item location " ++ jsShow itemData.location ++ " does not exist"]
          else []
        { valid := true,
          warnings := valueWarnings ++ rarityWarnings ++ locationWarnings,
          requirements := [] }

/-- `ValidationSystem.findEntityInGameState`. -/
def findEntityInGameState (entityId : String) (gameState : GameStateView) : Bool :=
  (gameState.entities.npc.get entityId).isSome ∨
  (gameState.entities.faction.get entityId).isSome ∨
  (gameState.entities.location.get entityId).isSome ∨
  (gameState.entities.item.get entityId).isSome ∨
  (gameState.entities.event.get entityId).isSome

/-- `ValidationSystem.validateEventCreation` (part_007 lines 235–281): the
blocking rule is the active-event cap; duration/scope/participants and the
political-stability advisory only warn. -/
def validateEventCreation (eventData : EntityData) (gameState : GameStateView) :
    ValidationResult :=
  let activeEvents := gameState.worldState.events.current
  if activeEvents.length ≥ MAX_ACTIVE_EVENTS then
    { valid := false,
      warnings := ["Maximum number of active events reached (" ++
        toString MAX_ACTIVE_EVENTS ++ ")"],
      requirements := [] }
  else
    let durationWarnings :=
      if jsTruthyStr eventData.duration ∧
          ¬ ["ongoing", "temporary", "permanent"].contains (eventData.duration.getD "") then
        ["Event duration should be \"ongoing\", \"temporary\", or \"permanent\""]
      else []
    let scopeWarnings :=
      if jsTruthyStr eventData.scope ∧
          ¬ ["local", "regional", "global"].contains (eventData.scope.getD "") then
        ["Event scope should be \"local\", \"regional\", or \"global\""]
      else []
    let participantWarnings :=
      (eventData.participants.getD []).filterMap (fun participantId =>
        if findEntityInGameState participantId gameState then none
        else some ("Event participant " ++ participantId ++ " does not exist"))
    let stabilityWarnings :=
      if eventData.type = some "political" ∧
          (match gameState.worldState.globalParameters.get "politicalStability" with
           | some v => decide (v < 30)
           | none => false) = true then
        ["Political events during low stability may cause significant unrest"]
      else []
    { valid := true,
      warnings := durationWarnings ++ scopeWarnings ++ participantWarnings ++
        stabilityWarnings,
      requirements := [] }

/-! ## Creation pipeline (`src/advanced-story-engine/src/systems/CreationSystem.js`) -/

/-- Per-kind `createEntity` specialisations (the body of
`EntityManager.createEntity` for a fixed kind; `createEntity` dispatches to
these). -/
def EntityManager.createNpc (em : EntityManager) (id : String)
    (data : EntityData) (now : String) : Except JsErr (NPC × EntityManager) :=
  if (em.entities.npc.get id).isSome then
    .error (.error ("Entity " ++ id ++ " of type npc already exists"))
  else
    let v := NPC.make id data now
    let em := { em with entities := { em.entities with npc := em.entities.npc.set id v } }
    let em := em.pushHistory .npc { id := id, created := now, data := data }
    .ok (v, em)

def EntityManager.createFaction (em : EntityManager) (id : String)
    (data : EntityData) (now : String) : Except JsErr (Faction × EntityManager) :=
  if (em.entities.faction.get id).isSome then
    .error (.error ("Entity " ++ id ++ " of type faction already exists"))
  else
    let v := Faction.make id data now
    let em := { em with entities := { em.entities with faction := em.entities.faction.set id v } }
    let em := em.pushHistory .faction { id := id, created := now, data := data }
    .ok (v, em)

def EntityManager.createLocation (em : EntityManager) (id : String)
    (data : EntityData) (now : String) : Except JsErr (Location × EntityManager) :=
  if (em.entities.location.get id).isSome then
    .error (.error ("Entity " ++ id ++ " of type location already exists"))
  else
    let v := Location.make id data now
    let em := { em with entities := { em.entities with location := em.entities.location.set id v } }
    let em := em.pushHistory .location { id := id, created := now, data := data }
    .ok (v, em)

def EntityManager.createItem (em : EntityManager) (id : String)
    (data : EntityData) (now : String) : Except JsErr (Item × EntityManager) :=
  if (em.entities.item.get id).isSome then
    .error (.error ("Entity " ++ id ++ " of type item already exists"))
  else
    let v := Item.make id data now
    let em := { em with entities := { em.entities with item := em.entities.item.set id v } }
    let em := em.pushHistory .item { id := id, created := now, data := data }
    .ok (v, em)

def EntityManager.createGameEvent (em : EntityManager) (id : String)
    (data : EntityData) (now : String) : Except JsErr (GameEvent × EntityManager) :=
  if (em.entities.event.get id).isSome then
    .error (.error ("Entity " ++ id ++ " of type event already exists"))
  else
    let v := GameEvent.make id data now
    let em := { em with entities := { em.entities with event := em.entities.event.set id v } }
    let em := em.pushHistory .event { id := id, created := now, data := data }
    .ok (v, em)

/-- `CreationSystem.findEntity`: search the five kind stores in
`ENTITY_TYPES` order. -/
def CreationSystem.findEntity (em : EntityManager) (entityId : String) : Option Entity :=
  match em.entities.npc.get entityId with
  | some v => some (.npc v)
  | none =>
    match em.entities.faction.get entityId with
    | some v => some (.faction v)
    | none =>
      match em.entities.location.get entityId with
      | some v => some (.location v)
      | none =>
        match em.entities.item.get entityId with
        | some v => some (.item v)
        | none => (em.entities.event.get entityId).map .event

/-- `CreationSystem.areLocationsConnectable`'s `compatibleTypes` table. -/
def locationCompatibleTypes : JsObj (List String) :=
  [("settlement", ["settlement", "structure", "landmark"]),
   ("wilderness", ["wilderness", "settlement", "landmark"]),
   ("structure", ["settlement", "structure"]),
   ("landmark", ["settlement", "wilderness"]),
   ("dungeon", ["wilderness", "structure"])]

/-- `CreationSystem.areLocationsConnectable`
(`compatibleTypes[loc1.type]?.includes(loc2.type) || false`). -/
def areLocationsConnectable (loc1 loc2 : Location) : Bool :=
  match locationCompatibleTypes.get loc1.type with
  | some types => types.contains loc2.type
  | none => false

/-- Write an updated location record back into the store (JavaScript mutates
the stored object in place). -/
def EntityManager.putLocation (em : EntityManager) (id : String) (loc : Location) :
    EntityManager :=
  { em with entities := { em.entities with location := em.entities.location.set id loc } }

/-- The second half of `CreationSystem.autoConnectLocation`: walk the
locations captured by `getAllEntities` at entry, connect the new location to
the first connectable one and stop (`break`). -/
def autoConnectLoop (em : EntityManager) (locId : String) :
    List String → EntityManager
  | [] => em
  | otherId :: rest =>
    match em.entities.location.get locId, em.entities.location.get otherId with
    | some loc, some other =>
      if other.id ≠ loc.id ∧ loc.connectedTo.length < 3 ∧
          areLocationsConnectable loc other then
        let em := em.putLocation locId { loc with connectedTo := loc.connectedTo ++ [other.id] }
        em.putLocation otherId { other with connectedTo := other.connectedTo ++ [loc.id] }
      else autoConnectLoop em locId rest
    | _, _ => autoConnectLoop em locId rest

/-- `CreationSystem.autoConnectLocation` lines 221–246: the player's current
location comes from the placeholder `getPlayerState()`
(`currentLocation: 'village_square'`). -/
def autoConnectLocation (em : EntityManager) (locId : String) : EntityManager :=
  let allLocationIds := em.entities.location.keys
  let playerLocation := "village_square"
  let em :=
    if locId ≠ playerLocation then
      match em.entities.location.get playerLocation, em.entities.location.get locId with
      | some currentLoc, some loc =>
        if areLocationsConnectable loc currentLoc then
          let em := em.putLocation locId
            { loc with connectedTo := loc.connectedTo ++ [playerLocation] }
          em.putLocation playerLocation
            { currentLoc with connectedTo := currentLoc.connectedTo ++ [loc.id] }
        else em
      | _, _ => em
    else em
  autoConnectLoop em locId allLocationIds

/-- The combined store state the `CreationSystem` writes through
(`entityManager`, `relationshipGraph`, `worldState`). -/
structure SysState where
  em : EntityManager
  graph : RelationshipGraph
  world : WorldState
  deriving Repr

/-- `CreationSystem.getGameState()`. -/
def SysState.gameState (s : SysState) : GameStateView :=
  { entities := s.em.entities, worldState := s.world,
    playerCurrentLocation := "village_square" }

/-- An entry of a `failed` bucket: `{data, reason}`. -/
structure FailedEntry where
  data : EntityData
  reason : Option String
  deriving Repr, DecidableEq

/-- The `created` buckets of a batch result. -/
structure CreatedRec where
  npcs : List NPC := []
  factions : List Faction := []
  locations : List Location := []
  items : List Item := []
  events : List WSEvent := []
  deriving Repr, DecidableEq

/-- The `failed` buckets of a batch result. -/
structure FailedRec where
  npcs : List FailedEntry := []
  factions : List FailedEntry := []
  locations : List FailedEntry := []
  items : List FailedEntry := []
  events : List FailedEntry := []
  deriving Repr, DecidableEq

/-- A batch result `{created, failed, warnings}`. -/
structure CreationResults where
  created : CreatedRec := {}
  failed : FailedRec := {}
  warnings : List String := []
  deriving Repr, DecidableEq

/-- A proposed relationship of a detection payload. -/
structure RelProposal where
  entity1 : String
  entity2 : String
  type : Option String := none
  strength : Option ℚ := none
  reason : Option String := none
  deriving Repr, DecidableEq

/-- The `worldUpdates` section of a detection payload. -/
structure WorldUpdates where
  tension : Option ℚ := none
  politicalStability : Option ℚ := none
  economicState : Option ℚ := none
  magicalActivity : Option ℚ := none
  rumors : Option (List String) := none
  news : Option (List String) := none
  deriving Repr, DecidableEq

/-- The `entities` section of a detection payload. -/
structure DetectionEntities where
  npcs : Option (List EntityData) := none
  factions : Option (List EntityData) := none
  locations : Option (List EntityData) := none
  items : Option (List EntityData) := none
  events : Option (List EntityData) := none
  deriving Repr, DecidableEq

/-- A detection payload. -/
structure Detection where
  entities : Option DetectionEntities := none
  relationships : Option (List RelProposal) := none
  worldUpdates : Option WorldUpdates := none
  deriving Repr, DecidableEq

/-- The message of a caught `Error` (`error.message`). -/
def JsErr.message : JsErr → String
  | .typeError m => m
  | .error m => m

/-- Record-update helpers for the batch result (plain `push`es). -/
def CreationResults.pushCreatedNpc (r : CreationResults) (npc : NPC) : CreationResults :=
  { r with created := { r.created with npcs := r.created.npcs ++ [npc] } }

def CreationResults.pushFailedNpc (r : CreationResults) (f : FailedEntry) : CreationResults :=
  { r with failed := { r.failed with npcs := r.failed.npcs ++ [f] } }

def CreationResults.pushCreatedFaction (r : CreationResults) (faction : Faction) : CreationResults :=
  { r with created := { r.created with factions := r.created.factions ++ [faction] } }

def CreationResults.pushFailedFaction (r : CreationResults) (f : FailedEntry) : CreationResults :=
  { r with failed := { r.failed with factions := r.failed.factions ++ [f] } }

def CreationResults.pushCreatedLocation (r : CreationResults) (location : Location) : CreationResults :=
  { r with created := { r.created with locations := r.created.locations ++ [location] } }

def CreationResults.pushFailedLocation (r : CreationResults) (f : FailedEntry) : CreationResults :=
  { r with failed := { r.failed with locations := r.failed.locations ++ [f] } }

def CreationResults.pushCreatedItem (r : CreationResults) (item : Item) : CreationResults :=
  { r with created := { r.created with items := r.created.items ++ [item] } }

def CreationResults.pushFailedItem (r : CreationResults) (f : FailedEntry) : CreationResults :=
  { r with failed := { r.failed with items := r.failed.items ++ [f] } }

def CreationResults.pushCreatedEvent (r : CreationResults) (event : WSEvent) : CreationResults :=
  { r with created := { r.created with events := r.created.events ++ [event] } }

def CreationResults.pushFailedEvent (r : CreationResults) (f : FailedEntry) : CreationResults :=
  { r with failed := { r.failed with events := r.failed.events ++ [f] } }

def CreationResults.pushWarning (r : CreationResults) (w : String) : CreationResults :=
  { r with warnings := r.warnings ++ [w] }

/-- The NPC loop of `createEntitiesFromDetection`: validate against the
*current* state, create on success, record `{data, reason}` plus a warning on
validation failure, catch store errors into the failed bucket; a missing
`npcData.id` indexes the store at the string `"undefined"`. -/
def npcLoop (now : String) (s : SysState) (r : CreationResults) :
    List EntityData → SysState × CreationResults
  | [] => (s, r)
  | npcData :: rest =>
    let validation := validateNPCCreation npcData s.gameState
    if validation.valid then
      match s.em.createNpc (jsShow npcData.id) npcData now with
      | .ok (npc, em') =>
        npcLoop now { s with em := em' } (r.pushCreatedNpc npc) rest
      | .error e =>
        npcLoop now s
          (r.pushFailedNpc { data := npcData, reason := some e.message }) rest
    else
      npcLoop now s
        ((r.pushFailedNpc { data := npcData, reason := validation.reason }).pushWarning
          ("Failed to create NPC " ++ jsShow npcData.name ++ ": " ++
            jsShow validation.reason)) rest

/-- The faction loop: a created faction additionally gets a zero player
standing (`setPlayerStanding(faction.id, {value: 0, established: now})`). -/
def factionLoop (now : String) (s : SysState) (r : CreationResults) :
    List EntityData → SysState × CreationResults
  | [] => (s, r)
  | factionData :: rest =>
    let validation := validateFactionCreation factionData s.gameState
    if validation.valid then
      match s.em.createFaction (jsShow factionData.id) factionData now with
      | .ok (faction, em') =>
        let graph' := Core.setPlayerStanding s.graph faction.id
          { value := some 0, established := some now } now
        factionLoop now { s with em := em', graph := graph' }
          (r.pushCreatedFaction faction) rest
      | .error e =>
        factionLoop now s
          (r.pushFailedFaction { data := factionData, reason := some e.message }) rest
    else
      factionLoop now s
        ((r.pushFailedFaction { data := factionData, reason := validation.reason }).pushWarning
          ("Failed to create faction " ++ jsShow factionData.name ++ ": " ++
            jsShow validation.reason)) rest

/-- The location loop: a created location with no connections is
auto-connected. -/
def locationLoop (now : String) (s : SysState) (r : CreationResults) :
    List EntityData → SysState × CreationResults
  | [] => (s, r)
  | locationData :: rest =>
    let validation := validateLocationCreation locationData s.gameState
    if validation.valid then
      match s.em.createLocation (jsShow locationData.id) locationData now with
      | .ok (location, em') =>
        let em'' :=
          if location.connectedTo.length = 0 then
            autoConnectLocation em' (jsShow locationData.id)
          else em'
        locationLoop now { s with em := em'' } (r.pushCreatedLocation location) rest
      | .error e =>
        locationLoop now s
          (r.pushFailedLocation { data := locationData, reason := some e.message }) rest
    else
      locationLoop now s
        ((r.pushFailedLocation { data := locationData, reason := validation.reason }).pushWarning
          ("Failed to create location " ++ jsShow locationData.name ++ ": " ++
            jsShow validation.reason)) rest

/-- The item loop. -/
def itemLoop (now : String) (s : SysState) (r : CreationResults) :
    List EntityData → SysState × CreationResults
  | [] => (s, r)
  | itemData :: rest =>
    let validation := validateItemCreation itemData s.gameState
    if validation.valid then
      match s.em.createItem (jsShow itemData.id) itemData now with
      | .ok (item, em') =>
        itemLoop now { s with em := em' } (r.pushCreatedItem item) rest
      | .error e =>
        itemLoop now s
          (r.pushFailedItem { data := itemData, reason := some e.message }) rest
    else
      itemLoop now s
        ((r.pushFailedItem { data := itemData, reason := validation.reason }).pushWarning
          ("Failed to create item " ++ jsShow itemData.name ++ ": " ++
            jsShow validation.reason)) rest

/-- Reading the `addEvent` fields out of the untyped data bag. -/
def EntityData.toEventData (d : EntityData) : EventData :=
  { id := d.id, name := d.name, type := d.type, scope := d.scope,
    duration := d.duration, startTime := d.startTime, endTime := d.endTime,
    participants := d.participants, consequences := d.consequences,
    description := d.description }

/-- The event loop: admitted events go to `worldState.addEvent`, not to the
entity store. -/
def eventLoop (now : String) (nowMs : ℕ) (s : SysState) (r : CreationResults) :
    List EntityData → SysState × CreationResults
  | [] => (s, r)
  | eventData :: rest =>
    let validation := validateEventCreation eventData s.gameState
    if validation.valid then
      let (event, world') := s.world.addEvent eventData.toEventData now nowMs
      eventLoop now nowMs { s with world := world' } (r.pushCreatedEvent event) rest
    else
      eventLoop now nowMs s
        ((r.pushFailedEvent { data := eventData, reason := validation.reason }).pushWarning
          ("Failed to create event " ++ jsShow eventData.name ++ ": " ++
            jsShow validation.reason)) rest

/-- `CreationSystem.createEntitiesFromDetection` lines 39–168: the five kind
loops in order, each validating against the current committed state; every
per-item failure is contained (recorded, never rethrown). -/
def createEntitiesFromDetection (s : SysState) (detection : Detection)
    (now : String) (nowMs : ℕ) : SysState × CreationResults :=
  match detection.entities with
  | none => (s, {})
  | some ents =>
    let p1 := npcLoop now s {} (ents.npcs.getD [])
    let p2 := factionLoop now p1.1 p1.2 (ents.factions.getD [])
    let p3 := locationLoop now p2.1 p2.2 (ents.locations.getD [])
    let p4 := itemLoop now p3.1 p3.2 (ents.items.getD [])
    eventLoop now nowMs p4.1 p4.2 (ents.events.getD [])

/-- `CreationSystem.processRelationships` lines 170–193: a proposal is
committed through the core `setRelationship` only when both endpoints are
found in the entity store. -/
def processRelationships (s : SysState) (now : String) :
    List RelProposal → SysState
  | [] => s
  | rel :: rest =>
    let s :=
      if (CreationSystem.findEntity s.em rel.entity1).isSome ∧
          (CreationSystem.findEntity s.em rel.entity2).isSome then
        { s with graph := (Core.setRelationship s.graph rel.entity1 rel.entity2
            { type := rel.type, strength := rel.strength, reason := rel.reason,
              established := some now } now).2 }
      else s
    processRelationships s now rest

/-- `CreationSystem.applyWorldUpdates` lines 195–219: each truthy parameter
delta goes through `updateGlobalParameter` (whose bounds-lookup bug makes the
call throw — there is no `try` here, so the first truthy delta aborts the
whole update); rumors and news are appended last. -/
def applyWorldUpdates (s : SysState) (updates : WorldUpdates) (now : String)
    (accuracy : ℚ) : SysState × Option JsErr :=
  let steps : List (String × Option ℚ) :=
    [("tension", updates.tension), ("politicalStability", updates.politicalStability),
     ("economicState", updates.economicState), ("magicalActivity", updates.magicalActivity)]
  match applyParams s steps with
  | (s, some e) => (s, some e)
  | (s, none) =>
    let s :=
      match updates.rumors with
      | some rumors =>
        { s with world := rumors.foldl (fun w rumor => w.addRumor rumor accuracy now) s.world }
      | none => s
    let s :=
      match updates.news with
      | some news =>
        { s with world := news.foldl (fun w item => w.addNews item now) s.world }
      | none => s
    (s, none)
where
  /-- The four sequential `if (updates.x) updateGlobalParameter('x', …)` steps. -/
  applyParams (s : SysState) : List (String × Option ℚ) → SysState × Option JsErr
    | [] => (s, none)
    | (name, delta) :: rest =>
      if jsTruthyNum delta then
        match s.world.updateGlobalParameter name (delta.getD 0)
            "AI-generated consequence" now with
        | .ok (_, world') => applyParams { s with world := world' } rest
        | .error e => (s, some e)
      else applyParams s rest

/-- `CreationSystem.processEntityCreation` lines 14–37, run to completion for
one in-flight payload.  `arrivals` are the payloads pushed onto
`creationQueue` by reentrant calls while the lock is held; after the in-flight
batch they are drained FIFO — but each queued payload only goes through
`createEntitiesFromDetection` (its relationships and world updates are never
applied, and its results are discarded).  If `applyWorldUpdates` throws, the
error propagates (the `finally` only releases the lock) and the queue is not
drained. -/
def processEntityCreationRun (s : SysState) (detectionResult : Detection)
    (arrivals : List Detection) (now : String) (nowMs : ℕ) (accuracy : ℚ) :
    Except JsErr CreationResults × SysState :=
  let p := createEntitiesFromDetection s detectionResult now nowMs
  match applyWorldUpdates
      (processRelationships p.1 now (detectionResult.relationships.getD []))
      (detectionResult.worldUpdates.getD {}) now accuracy with
  | (s3, some e) => (.error e, s3)
  | (s3, none) =>
    (.ok p.2, arrivals.foldl
      (fun st queuedResult => (createEntitiesFromDetection st queuedResult now nowMs).1) s3)

/-! ## Save/load boundary (`src/unnamed/part_002`, `StoryEngine`) -/

/-- The `relationships` section of a save document
(`{playerStandings, entityRelationships}`); `restoreGameState` feeds
`entityRelationships` to `importRelationships` and replays `playerStandings`
through `setPlayerStanding`. -/
structure SaveRelationships where
  playerStandings : JsObj Standing
  entityRelationships : Core.RelImportData
  deriving Repr, DecidableEq

/-- A parsed save document.  The player, story-context and session-metadata
subtrees are opaque to the world model and carried as type parameters; a
section that `hasOwnProperty` would miss is `none`.  (File I/O and JSON
parsing sit outside the modelled boundary.) -/
structure SaveDoc (π σ μ : Type) where
  player : Option π := none
  entities : Option EntitiesRec := none
  relationships : Option SaveRelationships := none
  worldState : Option WorldImportData := none
  storyContext : Option σ := none
  meta : Option μ := none

/-- The engine state touched by `restoreGameState`.  `player`, `storyContext`
and `meta` are plain `=`-assigned slots (an absent source value would store
`undefined`, hence the `Option`). -/
structure EngineState (π σ μ : Type) where
  player : Option π
  em : EntityManager
  graph : RelationshipGraph
  world : WorldState
  storyContext : Option σ
  meta : Option μ

/-- `StoryEngine.validateSaveFile` (part_002 lines 1150–1153):
`['player', 'entities', 'worldState', 'meta'].every(hasOwnProperty)`. -/
def validateSaveFile (gameState : SaveDoc π σ μ) : Bool :=
  gameState.player.isSome && gameState.entities.isSome &&
  gameState.worldState.isSome && gameState.meta.isSome

/-- Replay `Object.entries(playerStandings).forEach(([id, standing]) =>
setPlayerStanding(id, standing))`: a stored standing record fed back through
the `setPlayerStanding` defaults. -/
def replayStandings (g : RelationshipGraph) (standings : JsObj Standing)
    (now : String) : RelationshipGraph :=
  standings.foldl
    (fun g kv =>
      Core.setPlayerStanding g kv.1
        { value := some kv.2.value, history := some kv.2.history,
          lastChange := kv.2.lastChange, established := some kv.2.established } now)
    g

/-- `StoryEngine.restoreGameState` (part_002 lines 1155–1178). -/
def restoreGameState (s : EngineState π σ μ) (gameState : SaveDoc π σ μ)
    (now : String) : EngineState π σ μ :=
  let em := s.em.importEntities { entities := gameState.entities, creationHistory := none }
  let graph :=
    match gameState.relationships with
    | some rels =>
      replayStandings (Core.importRelationships s.graph rels.entityRelationships)
        rels.playerStandings now
    | none => s.graph
  let world := s.world.importWorldState (gameState.worldState.getD {})
  { player := gameState.player, em := em, graph := graph, world := world,
    storyContext := gameState.storyContext, meta := gameState.meta }

/-- `StoryEngine.loadGame` (part_002 lines 1128–1148), past the file read and
JSON parse: validate, then either restore and report success or leave every
store untouched and report failure. -/
def loadGame (s : EngineState π σ μ) (gameState : SaveDoc π σ μ) (now : String) :
    EngineState π σ μ × Bool :=
  if validateSaveFile gameState then (restoreGameState s gameState now, true)
  else (s, false)

/-! ## Theorems -/

/-- After a core `setRelationship`, the stored edge is exactly the returned
relationship. -/
theorem Core.getRelationship_after_set (g : RelationshipGraph)
    (e1 e2 : String) (d : RelationshipData) (now : String) :
    Core.getRelationship (Core.setRelationship g e1 e2 d now).2 e1 e2 =
      some (Core.setRelationship g e1 e2 d now).1 := by
  unfold Core.setRelationship Core.getRelationship
  simp [JsObj.get_set_self]

/-- C1 counterexample: calling the core `setRelationship` with strength 500
stores strength 500 — not the claimed clamped 100, and outside `[0,100]`. -/
theorem core_setRelationship_stores_500 :
    (Core.getRelationship
      (Core.setRelationship RelationshipGraph.init "a" "b"
        { type := some "ally", strength := some 500 } "t0").2 "a" "b").map
      Relationship.strength = some 500 ∧ ¬ ((500 : ℚ) ≤ 100) := by
  constructor
  · rw [Core.getRelationship_after_set]
    rfl
  · norm_num

/-- C1 (amended): the core `setRelationship` stores the supplied strength
unchanged whenever it is nonzero (500 stays 500, −20 stays −20; only the
falsy 0/absent becomes the default 50) and the stored edge is the returned
relationship; the enhanced rewrite never stores anything at all, because its
relationship-type check fails on every call, so out-of-range strengths are
never clamped there either. -/
theorem core_setRelationship_passthrough_enhanced_rejects
    (g : RelationshipGraph) (e1 e2 : String) (d : RelationshipData)
    (now : String) (s : ℚ) (hs : d.strength = some s) (hnz : s ≠ 0) :
    ((Core.setRelationship g e1 e2 d now).1).strength = s ∧
    Core.getRelationship (Core.setRelationship g e1 e2 d now).2 e1 e2 =
      some (Core.setRelationship g e1 e2 d now).1 ∧
    (Enhanced.setRelationship g e1 e2 d now).isOk = false := by
  refine ⟨?_, Core.getRelationship_after_set g e1 e2 d now,
    Enhanced.setRelationship_always_err g e1 e2 d now⟩
  simp [Core.setRelationship, hs, jsOrNum, hnz]

/-- C1 witness: the amended statement at strength 500. -/
theorem core_setRelationship_passthrough_witness :
    ((Core.setRelationship RelationshipGraph.init "a" "b"
        { type := some "ally", strength := some 500 } "t0").1).strength = 500 ∧
    Core.getRelationship (Core.setRelationship RelationshipGraph.init "a" "b"
        { type := some "ally", strength := some 500 } "t0").2 "a" "b" =
      some (Core.setRelationship RelationshipGraph.init "a" "b"
        { type := some "ally", strength := some 500 } "t0").1 ∧
    (Enhanced.setRelationship RelationshipGraph.init "a" "b"
        { type := some "ally", strength := some 500 } "t0").isOk = false :=
  core_setRelationship_passthrough_enhanced_rejects RelationshipGraph.init
    "a" "b" { type := some "ally", strength := some 500 } "t0" 500 rfl
    (by norm_num)

/-- C7 counterexample: writing an edge twice through the core
`setRelationship` logs the second write as `'established'` (not
`'updated'`), and the second stored edge's history is the caller-supplied
default `[]` — the first write's history entry is discarded, not extended. -/
theorem second_set_logs_established_discards_history :
    (let g1 := (Core.setRelationship RelationshipGraph.init "a" "b"
      { type := some "ally", strength := some 80,
        history := some [{ timestamp := "t0", type := "ally", strength := 80,
                           reason := "met" }] } "t1").2
    let g2 := (Core.setRelationship g1 "a" "b"
      { type := some "ally", strength := some 90 } "t2").2
    ((g2.relationshipHistory.getLast?).map LedgerEntry.action = some "established" ∧
     (Core.getRelationship g2 "a" "b").map Relationship.history = some [])) ∧
    "established" ≠ "updated" := by
  constructor
  · constructor
    · decide
    · decide
  · decide

/-- C7 (amended): every core `setRelationship` call appends exactly one
ledger entry whose action is `'established'` — whether or not the edge
already existed — and stores as the edge's history the caller-supplied
history (empty by default), discarding any existing edge's entries; the
`'updated'`-vs-`'established'` distinction and history preservation exist
only in the enhanced rewrite, where they are unreachable because every call
fails its relationship-type check. -/
theorem core_setRelationship_always_established (g : RelationshipGraph)
    (e1 e2 : String) (d : RelationshipData) (now : String) :
    (Core.setRelationship g e1 e2 d now).2.relationshipHistory =
      g.relationshipHistory ++
        [{ entity1 := e1, entity2 := e2, action := "established",
           relationship := (Core.setRelationship g e1 e2 d now).1,
           timestamp := now }] ∧
    ((Core.setRelationship g e1 e2 d now).1).history = d.history.getD [] ∧
    (Enhanced.setRelationship g e1 e2 d now).isOk = false := by
  refine ⟨?_, ?_, Enhanced.setRelationship_always_err g e1 e2 d now⟩ <;>
    simp [Core.setRelationship]

/-- C10: the core `setRelationship` replaces each falsy field of
`relationshipData` by its default in the stored edge — strength 0 becomes
50, the empty-string type becomes `'neutral'` — and the stored strength is
never 0. -/
theorem core_setRelationship_falsy_defaults (g : RelationshipGraph)
    (e1 e2 : String) (d : RelationshipData) (now : String) :
    Core.getRelationship (Core.setRelationship g e1 e2 d now).2 e1 e2 =
      some (Core.setRelationship g e1 e2 d now).1 ∧
    (d.strength = some 0 → ((Core.setRelationship g e1 e2 d now).1).strength = 50) ∧
    (d.type = some "" → ((Core.setRelationship g e1 e2 d now).1).type = "neutral") ∧
    ((Core.setRelationship g e1 e2 d now).1).strength ≠ 0 := by
  refine ⟨Core.getRelationship_after_set g e1 e2 d now, ?_, ?_, ?_⟩
  · intro h; simp [Core.setRelationship, h, jsOrNum]
  · intro h; simp [Core.setRelationship, h, jsOrStr]
  · show jsOrNum d.strength 50 ≠ 0
    unfold jsOrNum
    match d.strength with
    | none => norm_num
    | some v =>
      by_cases hv : v = 0
      · simp [hv]
      · simp [hv]

/-- C10 witness: a supplied strength of exactly 0 and an empty-string type
are stored as 50 and `'neutral'`. -/
theorem core_setRelationship_falsy_defaults_witness :
    ((Core.setRelationship RelationshipGraph.init "a" "b"
        { type := some "", strength := some 0 } "t0").1).strength = 50 ∧
    ((Core.setRelationship RelationshipGraph.init "a" "b"
        { type := some "", strength := some 0 } "t0").1).type = "neutral" :=
  ⟨(core_setRelationship_falsy_defaults RelationshipGraph.init "a" "b"
      { type := some "", strength := some 0 } "t0").2.1 rfl,
   (core_setRelationship_falsy_defaults RelationshipGraph.init "a" "b"
      { type := some "", strength := some 0 } "t0").2.2.1 rfl⟩

/-- C2: for every recognized world-parameter name (the four keys of
`globalParameters`) and every delta, `updateGlobalParameter` throws a
`TypeError` instead of clamping and recording: `parameter.toUpperCase()`
(`TENSION`, `POLITICALSTABILITY`, `ECONOMICSTATE`, `MAGICALACTIVITY`) never
matches a `WORLD_PARAMETERS` key (`GLOBAL_TENSION`, `POLITICAL_STABILITY`,
`ECONOMIC_STATE`, `MAGICAL_ACTIVITY`), so `bounds.min` reads a property of
`undefined`.  In particular the claimed tension scenario (default 30, delta
−50 → 0 with one history record) never happens: the call fails and the state
is untouched. -/
theorem updateGlobalParameter_recognized_names_typeError
    (c : ℚ) (reason now : String) :
    WorldState.init.updateGlobalParameter "tension" c reason now =
      .error (.typeError "Cannot read properties of undefined (reading 'min')") ∧
    WorldState.init.updateGlobalParameter "politicalStability" c reason now =
      .error (.typeError "Cannot read properties of undefined (reading 'min')") ∧
    WorldState.init.updateGlobalParameter "economicState" c reason now =
      .error (.typeError "Cannot read properties of undefined (reading 'min')") ∧
    WorldState.init.updateGlobalParameter "magicalActivity" c reason now =
      .error (.typeError "Cannot read properties of undefined (reading 'min')") := by
  have key : ∀ (ws : WorldState) (p : String) (old : ℚ),
      ws.globalParameters.get p = some old →
      WORLD_PARAMETERS.get (jsToUpperCase p) = none →
      ws.updateGlobalParameter p c reason now =
        .error (.typeError "Cannot read properties of undefined (reading 'min')") := by
    intro ws p old h1 h2
    unfold WorldState.updateGlobalParameter
    rw [h1, h2]
  exact ⟨key _ _ 30 (by decide) (by decide), key _ _ 80 (by decide) (by decide),
    key _ _ 50 (by decide) (by decide), key _ _ 20 (by decide) (by decide)⟩

/-- C5: after a successful create of `(kind, id)`, a second create of the
same pair fails with the duplicate-entity error, and the stored entity of the
first call is still in place, untouched by the failed call. -/
theorem createEntity_duplicate_rejected (em : EntityManager) (t : EntityType)
    (id : String) (d1 d2 : EntityData) (now1 now2 : String) (e : Entity)
    (em1 : EntityManager)
    (h : em.createEntity t id d1 now1 = .ok (e, em1)) :
    em1.createEntity t id d2 now2 =
      .error (.error ("Entity " ++ id ++ " of type " ++ t.str ++ " already exists")) ∧
    em1.lookup t id = some e := by
  unfold EntityManager.createEntity at h
  by_cases hg : (em.lookup t id).isSome
  · simp [hg] at h
  · simp [hg] at h
    obtain ⟨he, hem⟩ := h
    have hl : em1.lookup t id = some e := by
      subst hem
      subst he
      cases t <;>
        simp [EntityManager.lookup, EntityManager.store, EntityManager.pushHistory,
          JsObj.get_set_self]
    refine ⟨?_, hl⟩
    unfold EntityManager.createEntity
    simp [hl]

/-- The state after the first create of the C5 witness scenario. -/
def emAfterFirstCreate : EntityManager :=
  match EntityManager.init.createEntity .npc "x" {} "t1" with
  | .ok p => p.2
  | .error _ => EntityManager.init

/-- The entity returned by the first create of the C5 witness scenario. -/
def entityFirst : Entity :=
  match EntityManager.init.createEntity .npc "x" {} "t1" with
  | .ok p => p.1
  | .error _ => .npc (NPC.make "x" {} "t1")

/-- C5 witness: creating `(npc, "x")` twice. -/
theorem createEntity_duplicate_rejected_witness :
    emAfterFirstCreate.createEntity .npc "x" {} "t2" =
      .error (.error ("Entity " ++ "x" ++ " of type " ++ EntityType.npc.str ++
        " already exists")) ∧
    emAfterFirstCreate.lookup .npc "x" = some entityFirst :=
  createEntity_duplicate_rejected EntityManager.init .npc "x" {} {} "t1" "t2"
    entityFirst emAfterFirstCreate rfl

/-- C9: a save document missing any of the `player`, `entities`,
`worldState`, `meta` sections is rejected by `loadGame` — the result flag is
`false` and the engine state (player, entity store, relationship graph,
world state) is returned unchanged; `restoreGameState` is never reached. -/
theorem loadGame_rejects_incomplete_doc {π σ μ : Type}
    (doc : SaveDoc π σ μ) (s : EngineState π σ μ) (now : String)
    (h : doc.player = none ∨ doc.entities = none ∨ doc.worldState = none ∨
      doc.meta = none) :
    loadGame s doc now = (s, false) := by
  unfold loadGame validateSaveFile
  rcases h with h | h | h | h <;> simp [h]

/-- C9 witness: a document missing only `meta` is rejected and the engine
state is unchanged. -/
theorem loadGame_rejects_incomplete_doc_witness :
    loadGame
      ({ player := some "p0", em := EntityManager.init,
         graph := RelationshipGraph.init, world := WorldState.init,
         storyContext := none, meta := some "m" } : EngineState String String String)
      ({ player := some "p", entities := some EntityManager.init.entities,
         worldState := some {}, meta := none } : SaveDoc String String String)
      "t0" =
    ({ player := some "p0", em := EntityManager.init,
       graph := RelationshipGraph.init, world := WorldState.init,
       storyContext := none, meta := some "m" }, false) :=
  loadGame_rejects_incomplete_doc _ _ "t0" (Or.inr (Or.inr (Or.inr rfl)))

/-- The outgoing edges of an entity (`this.relationships.get(entity1Id)`,
empty when the entity has no outgoing map). -/
def outgoingEdges (g : RelationshipGraph) (entityId : String) : JsObj Relationship :=
  (g.relationships.get entityId).getD []

/-- The spec's formulation of the two-hop fallback: for every intermediary
`C` with an edge `A→C` and an edge `C→B`, the weighted product
`strength(A,C) × strength(C,B) / 100`. -/
def specTwoHopStrengths (g : RelationshipGraph) (a b : String) : List ℚ :=
  (outgoingEdges g a).filterMap (fun kv =>
    (Core.getRelationship g kv.1 b).map (fun r2 => kv.2.strength * r2.strength / 100))

/-- The two-hop fold of `calculateRelationshipStrength` accumulates exactly
the sum and the count of the spec's two-hop path list. -/
theorem twoHop_foldl (g : RelationshipGraph) (b : String) :
    ∀ (edges : JsObj Relationship) (acc : ℚ × ℕ),
      edges.foldl
        (fun (acc : ℚ × ℕ) (kv : String × Relationship) =>
          match Core.getRelationship g kv.1 b with
          | some relationship2 =>
            (acc.1 + kv.2.strength * relationship2.strength / 100, acc.2 + 1)
          | none => acc)
        acc =
      (acc.1 + (edges.filterMap (fun kv =>
          (Core.getRelationship g kv.1 b).map
            (fun r2 => kv.2.strength * r2.strength / 100))).sum,
       acc.2 + (edges.filterMap (fun kv =>
          (Core.getRelationship g kv.1 b).map
            (fun r2 => kv.2.strength * r2.strength / 100))).length) := by
  intro edges
  induction edges with
  | nil => intro acc; simp
  | cons kv rest ih =>
    intro acc
    cases h : Core.getRelationship g kv.1 b with
    | none => simp [List.foldl, h, ih]
    | some r2 =>
      simp [List.foldl, h, ih]
      constructor
      · ring
      · omega

/-- The code's two-hop fallback equals the spec's formulation: direct edge
first, otherwise the average of the spec's two-hop path list (0 when empty). -/
theorem calculateRelationshipStrength_eq_spec (g : RelationshipGraph)
    (a b : String) :
    Core.calculateRelationshipStrength g a b =
      match Core.getRelationship g a b with
      | some direct => direct.strength
      | none =>
        if specTwoHopStrengths g a b = [] then 0
        else (specTwoHopStrengths g a b).sum /
          ((specTwoHopStrengths g a b).length : ℚ) := by
  unfold Core.calculateRelationshipStrength
  cases hd : Core.getRelationship g a b with
  | some direct => simp
  | none =>
    cases he : g.relationships.get a with
    | none =>
      simp [specTwoHopStrengths, outgoingEdges, he]
    | some edges =>
      dsimp only
      rw [twoHop_foldl g b edges (0, 0)]
      simp only [specTwoHopStrengths, outgoingEdges, he, Option.getD_some,
        zero_add, Nat.zero_add]
      by_cases hlen : (edges.filterMap (fun kv =>
          (Core.getRelationship g kv.1 b).map
            (fun r2 => kv.2.strength * r2.strength / 100))) = []
      · simp [hlen]
      · have : 0 < (edges.filterMap (fun kv =>
            (Core.getRelationship g kv.1 b).map
              (fun r2 => kv.2.strength * r2.strength / 100))).length :=
          List.length_pos.mpr hlen
        simp [hlen, this]

/-- The C6 example graph: no direct edge between `A` and `B`, but `A→C` with
strength 80 and `C→B` with strength 60. -/
def exampleTwoHopGraph : RelationshipGraph :=
  (Core.setRelationship
    (Core.setRelationship RelationshipGraph.init "A" "C"
      { type := some "ally", strength := some 80 } "t1").2
    "C" "B" { type := some "ally", strength := some 60 } "t2").2

/-- C6: `calculateRelationshipStrength` returns the direct edge's strength
when one exists, and otherwise the average over all two-hop paths of the
weighted products `strength(A,C) × strength(C,B) / 100` (0 when there is no
such path); on the example graph the derived strength is `80×60/100 = 48`. -/
theorem calculateRelationshipStrength_spec :
    (∀ (g : RelationshipGraph) (a b : String),
      Core.calculateRelationshipStrength g a b =
        match Core.getRelationship g a b with
        | some direct => direct.strength
        | none =>
          if specTwoHopStrengths g a b = [] then 0
          else (specTwoHopStrengths g a b).sum /
            ((specTwoHopStrengths g a b).length : ℚ)) ∧
    Core.calculateRelationshipStrength exampleTwoHopGraph "A" "B" = 48 := by
  refine ⟨calculateRelationshipStrength_eq_spec, ?_⟩
  rw [calculateRelationshipStrength_eq_spec]
  have hd : Core.getRelationship exampleTwoHopGraph "A" "B" = none := by decide
  have hspec : specTwoHopStrengths exampleTwoHopGraph "A" "B" =
      [(80 : ℚ) * 60 / 100] := by
    simp +decide [specTwoHopStrengths, outgoingEdges, exampleTwoHopGraph,
      Core.setRelationship, Core.getRelationship, JsObj.get, JsObj.set,
      JsObj.hasKey, jsOrNum, jsOrStr]
  rw [hd, hspec]
  norm_num

/-- C8: exporting the three stores and importing into fresh instances
reproduces the entity stores per kind, every relationship edge (per source
and target, same record, hence same type and strength), the player
standings, and the world-parameter values. -/
theorem export_import_roundtrip (em : EntityManager) (g : RelationshipGraph)
    (ws : WorldState) (now : String) :
    EntityManager.init.importEntities (em.exportEntities now).toImportData = em ∧
    (Core.importRelationships RelationshipGraph.init
        (Core.exportRelationships g now).toImportData).relationships =
      g.relationships ∧
    (∀ a b : String,
      Core.getRelationship
        (Core.importRelationships RelationshipGraph.init
          (Core.exportRelationships g now).toImportData) a b =
      Core.getRelationship g a b) ∧
    (Core.importRelationships RelationshipGraph.init
        (Core.exportRelationships g now).toImportData).playerStandings =
      g.playerStandings ∧
    (WorldState.init.importWorldState
        (ws.exportWorldState now).toImportData).globalParameters =
      ws.globalParameters := by
  have hrels : (Core.importRelationships RelationshipGraph.init
      (Core.exportRelationships g now).toImportData).relationships =
      g.relationships := by
    simp [Core.importRelationships, Core.exportRelationships,
      Core.RelExport.toImportData, JsObj.fromEntries_eq, Core.mapFromEntries_eq,
      JsObj.fromEntries]
  refine ⟨?_, hrels, ?_, ?_, ?_⟩
  · simp [EntityManager.importEntities, EntityManager.exportEntities,
      EntitiesExport.toImportData]
  · intro a b
    unfold Core.getRelationship
    rw [hrels]
  · simp [Core.importRelationships, Core.exportRelationships,
      Core.RelExport.toImportData, JsObj.fromEntries_eq, Core.mapFromEntries_eq]
  · simp [WorldState.importWorldState, WorldState.exportWorldState,
      WorldExport.toImportData]

/-- `createNpc` succeeds exactly on a fresh id, and then only appends that
binding to the NPC store. -/
theorem createNpc_ok_spec (em : EntityManager) (key : String) (d : EntityData)
    (now : String) (v : NPC) (em' : EntityManager)
    (h : em.createNpc key d now = .ok (v, em')) :
    em.entities.npc.get key = none ∧
    em'.entities.npc = em.entities.npc.set key (NPC.make key d now) := by
  unfold EntityManager.createNpc at h
  by_cases hg : (em.entities.npc.get key).isSome
  · simp [hg] at h
  · refine ⟨Option.not_isSome_iff_eq_none.mp (by simpa using hg), ?_⟩
    simp [hg] at h
    obtain ⟨hv, hem⟩ := h
    subst hem
    simp [EntityManager.pushHistory]


/-- The NPC loop: every input item lands in exactly one of the two NPC
buckets, and NPC-store bindings present before the loop are untouched. -/
theorem npcLoop_props (now : String) :
    ∀ (l : List EntityData) (s : SysState) (r : CreationResults),
      ((npcLoop now s r l).2.created.npcs.length +
        (npcLoop now s r l).2.failed.npcs.length =
        r.created.npcs.length + r.failed.npcs.length + l.length) ∧
      (∀ id : String, (s.em.entities.npc.get id).isSome →
        (npcLoop now s r l).1.em.entities.npc.get id = s.em.entities.npc.get id) := by
  intro l
  induction l with
  | nil =>
    intro s r
    exact ⟨by simp [npcLoop], fun id _ => by simp [npcLoop]⟩
  | cons npcData rest ih =>
    intro s r
    unfold npcLoop
    by_cases hv : (validateNPCCreation npcData s.gameState).valid = true
    · rw [if_pos hv]
      cases hc : s.em.createNpc (jsShow npcData.id) npcData now with
      | ok p =>
        obtain ⟨npc, em'⟩ := p
        obtain ⟨hfresh, hstore⟩ :=
          createNpc_ok_spec s.em (jsShow npcData.id) npcData now npc em' hc
        dsimp only
        constructor
        · rw [(ih _ _).1]
          simp [CreationResults.pushCreatedNpc]
          omega
        · intro id hid
          have hne : jsShow npcData.id ≠ id := by
            intro he
            rw [← he, hfresh] at hid
            simp at hid
          have hpre : em'.entities.npc.get id = s.em.entities.npc.get id := by
            rw [hstore]
            exact JsObj.get_set_ne _ _ _ _ hne
          rw [(ih { s with em := em' } (r.pushCreatedNpc npc)).2 id
            (by show (em'.entities.npc.get id).isSome = true; rw [hpre]; exact hid)]
          exact hpre
      | error e =>
        dsimp only
        constructor
        · rw [(ih _ _).1]
          simp [CreationResults.pushFailedNpc]
          omega
        · intro id hid
          rw [(ih _ _).2 id hid]
    · rw [if_neg hv]
      constructor
      · rw [(ih _ _).1]
        simp [CreationResults.pushFailedNpc, CreationResults.pushWarning]
        omega
      · intro id hid
        rw [(ih _ _).2 id hid]

/-- A successful `createFaction` leaves the NPC store untouched. -/
theorem createFaction_ok_npc (em : EntityManager) (key : String)
    (d : EntityData) (now : String) (v : Faction) (em' : EntityManager)
    (h : em.createFaction key d now = .ok (v, em')) :
    em'.entities.npc = em.entities.npc := by
  unfold EntityManager.createFaction at h
  by_cases hg : (em.entities.faction.get key).isSome
  · simp [hg] at h
  · simp [hg] at h
    obtain ⟨_, hem⟩ := h
    subst hem
    simp [EntityManager.pushHistory]

/-- A successful `createLocation` leaves the NPC store untouched. -/
theorem createLocation_ok_npc (em : EntityManager) (key : String)
    (d : EntityData) (now : String) (v : Location) (em' : EntityManager)
    (h : em.createLocation key d now = .ok (v, em')) :
    em'.entities.npc = em.entities.npc := by
  unfold EntityManager.createLocation at h
  by_cases hg : (em.entities.location.get key).isSome
  · simp [hg] at h
  · simp [hg] at h
    obtain ⟨_, hem⟩ := h
    subst hem
    simp [EntityManager.pushHistory]

/-- A successful `createItem` leaves the NPC store untouched. -/
theorem createItem_ok_npc (em : EntityManager) (key : String)
    (d : EntityData) (now : String) (v : Item) (em' : EntityManager)
    (h : em.createItem key d now = .ok (v, em')) :
    em'.entities.npc = em.entities.npc := by
  unfold EntityManager.createItem at h
  by_cases hg : (em.entities.item.get key).isSome
  · simp [hg] at h
  · simp [hg] at h
    obtain ⟨_, hem⟩ := h
    subst hem
    simp [EntityManager.pushHistory]

/-- `autoConnectLoop` only rewrites location records. -/
theorem autoConnectLoop_npc (locId : String) :
    ∀ (l : List String) (em : EntityManager),
      (autoConnectLoop em locId l).entities.npc = em.entities.npc := by
  intro l
  induction l with
  | nil => intro em; simp [autoConnectLoop]
  | cons otherId rest ih =>
    intro em
    unfold autoConnectLoop
    cases hl : em.entities.location.get locId with
    | none => exact ih em
    | some loc =>
      cases ho : em.entities.location.get otherId with
      | none => exact ih em
      | some other =>
        dsimp only
        by_cases hcond : other.id ≠ loc.id ∧ loc.connectedTo.length < 3 ∧
            areLocationsConnectable loc other = true
        · rw [if_pos hcond]
          simp [EntityManager.putLocation]
        · rw [if_neg hcond]
          exact ih em

/-- `autoConnectLocation` only rewrites location records. -/
theorem autoConnectLocation_npc (em : EntityManager) (locId : String) :
    (autoConnectLocation em locId).entities.npc = em.entities.npc := by
  unfold autoConnectLocation
  rw [autoConnectLoop_npc]
  by_cases h1 : locId ≠ "village_square"
  · rw [if_pos h1]
    cases em.entities.location.get "village_square" with
    | none => rfl
    | some currentLoc =>
      cases em.entities.location.get locId with
      | none => rfl
      | some loc =>
        dsimp only
        by_cases h2 : areLocationsConnectable loc currentLoc = true
        · rw [if_pos h2]
          simp [EntityManager.putLocation]
        · rw [if_neg h2]
  · rw [if_neg h1]

/-- The faction loop never touches the NPC store or the NPC buckets. -/
theorem factionLoop_npc (now : String) :
    ∀ (l : List EntityData) (s : SysState) (r : CreationResults),
      (factionLoop now s r l).1.em.entities.npc = s.em.entities.npc ∧
      (factionLoop now s r l).2.created.npcs = r.created.npcs ∧
      (factionLoop now s r l).2.failed.npcs = r.failed.npcs := by
  intro l
  induction l with
  | nil => intro s r; simp [factionLoop]
  | cons factionData rest ih =>
    intro s r
    unfold factionLoop
    by_cases hv : (validateFactionCreation factionData s.gameState).valid = true
    · rw [if_pos hv]
      cases hc : s.em.createFaction (jsShow factionData.id) factionData now with
      | ok p =>
        obtain ⟨faction, em'⟩ := p
        have hnpc := createFaction_ok_npc s.em (jsShow factionData.id)
          factionData now faction em' hc
        dsimp only
        refine ⟨?_, ?_, ?_⟩
        · rw [(ih _ _).1]
          exact hnpc
        · rw [(ih _ _).2.1]
          simp [CreationResults.pushCreatedFaction]
        · rw [(ih _ _).2.2]
          simp [CreationResults.pushCreatedFaction]
      | error e =>
        dsimp only
        refine ⟨(ih _ _).1, ?_, ?_⟩
        · rw [(ih _ _).2.1]
          simp [CreationResults.pushFailedFaction]
        · rw [(ih _ _).2.2]
          simp [CreationResults.pushFailedFaction]
    · rw [if_neg hv]
      refine ⟨(ih _ _).1, ?_, ?_⟩
      · rw [(ih _ _).2.1]
        simp [CreationResults.pushFailedFaction, CreationResults.pushWarning]
      · rw [(ih _ _).2.2]
        simp [CreationResults.pushFailedFaction, CreationResults.pushWarning]

/-- The location loop never touches the NPC store or the NPC buckets. -/
theorem locationLoop_npc (now : String) :
    ∀ (l : List EntityData) (s : SysState) (r : CreationResults),
      (locationLoop now s r l).1.em.entities.npc = s.em.entities.npc ∧
      (locationLoop now s r l).2.created.npcs = r.created.npcs ∧
      (locationLoop now s r l).2.failed.npcs = r.failed.npcs := by
  intro l
  induction l with
  | nil => intro s r; simp [locationLoop]
  | cons locationData rest ih =>
    intro s r
    unfold locationLoop
    by_cases hv : (validateLocationCreation locationData s.gameState).valid = true
    · rw [if_pos hv]
      cases hc : s.em.createLocation (jsShow locationData.id) locationData now with
      | ok p =>
        obtain ⟨location, em'⟩ := p
        have hnpc := createLocation_ok_npc s.em (jsShow locationData.id)
          locationData now location em' hc
        dsimp only
        refine ⟨?_, ?_, ?_⟩
        · rw [(ih _ _).1]
          by_cases hconn : location.connectedTo.length = 0
          · rw [if_pos hconn, autoConnectLocation_npc]
            exact hnpc
          · rw [if_neg hconn]
            exact hnpc
        · rw [(ih _ _).2.1]
          simp [CreationResults.pushCreatedLocation]
        · rw [(ih _ _).2.2]
          simp [CreationResults.pushCreatedLocation]
      | error e =>
        dsimp only
        refine ⟨(ih _ _).1, ?_, ?_⟩
        · rw [(ih _ _).2.1]
          simp [CreationResults.pushFailedLocation]
        · rw [(ih _ _).2.2]
          simp [CreationResults.pushFailedLocation]
    · rw [if_neg hv]
      refine ⟨(ih _ _).1, ?_, ?_⟩
      · rw [(ih _ _).2.1]
        simp [CreationResults.pushFailedLocation, CreationResults.pushWarning]
      · rw [(ih _ _).2.2]
        simp [CreationResults.pushFailedLocation, CreationResults.pushWarning]

/-- The item loop never touches the NPC store or the NPC buckets. -/
theorem itemLoop_npc (now : String) :
    ∀ (l : List EntityData) (s : SysState) (r : CreationResults),
      (itemLoop now s r l).1.em.entities.npc = s.em.entities.npc ∧
      (itemLoop now s r l).2.created.npcs = r.created.npcs ∧
      (itemLoop now s r l).2.failed.npcs = r.failed.npcs := by
  intro l
  induction l with
  | nil => intro s r; simp [itemLoop]
  | cons itemData rest ih =>
    intro s r
    unfold itemLoop
    by_cases hv : (validateItemCreation itemData s.gameState).valid = true
    · rw [if_pos hv]
      cases hc : s.em.createItem (jsShow itemData.id) itemData now with
      | ok p =>
        obtain ⟨item, em'⟩ := p
        have hnpc := createItem_ok_npc s.em (jsShow itemData.id) itemData now item em' hc
        dsimp only
        refine ⟨?_, ?_, ?_⟩
        · rw [(ih _ _).1]
          exact hnpc
        · rw [(ih _ _).2.1]
          simp [CreationResults.pushCreatedItem]
        · rw [(ih _ _).2.2]
          simp [CreationResults.pushCreatedItem]
      | error e =>
        dsimp only
        refine ⟨(ih _ _).1, ?_, ?_⟩
        · rw [(ih _ _).2.1]
          simp [CreationResults.pushFailedItem]
        · rw [(ih _ _).2.2]
          simp [CreationResults.pushFailedItem]
    · rw [if_neg hv]
      refine ⟨(ih _ _).1, ?_, ?_⟩
      · rw [(ih _ _).2.1]
        simp [CreationResults.pushFailedItem, CreationResults.pushWarning]
      · rw [(ih _ _).2.2]
        simp [CreationResults.pushFailedItem, CreationResults.pushWarning]

/-- The event loop never touches the entity store or the NPC buckets (events
go to the world state). -/
theorem eventLoop_npc (now : String) (nowMs : ℕ) :
    ∀ (l : List EntityData) (s : SysState) (r : CreationResults),
      (eventLoop now nowMs s r l).1.em = s.em ∧
      (eventLoop now nowMs s r l).2.created.npcs = r.created.npcs ∧
      (eventLoop now nowMs s r l).2.failed.npcs = r.failed.npcs := by
  intro l
  induction l with
  | nil => intro s r; simp [eventLoop]
  | cons eventData rest ih =>
    intro s r
    unfold eventLoop
    by_cases hv : (validateEventCreation eventData s.gameState).valid = true
    · rw [if_pos hv]
      dsimp only
      refine ⟨(ih _ _).1, ?_, ?_⟩
      · rw [(ih _ _).2.1]
        simp [CreationResults.pushCreatedEvent]
      · rw [(ih _ _).2.2]
        simp [CreationResults.pushCreatedEvent]
    · rw [if_neg hv]
      refine ⟨(ih _ _).1, ?_, ?_⟩
      · rw [(ih _ _).2.1]
        simp [CreationResults.pushFailedEvent, CreationResults.pushWarning]
      · rw [(ih _ _).2.2]
        simp [CreationResults.pushFailedEvent, CreationResults.pushWarning]

/-- C3 (amended): batch admission is partial-failure tolerant — every NPC of
the payload lands in exactly one of `created.npcs` / `failed.npcs` (a
rejection never stops the siblings, and the total function embeds that no
exception escapes), and NPC-store bindings committed before any point of the
batch are never removed or overwritten by later failures or successes. -/
theorem batch_partial_failure_containment (s : SysState) (detection : Detection)
    (now : String) (nowMs : ℕ) :
    ((createEntitiesFromDetection s detection now nowMs).2.created.npcs.length +
      (createEntitiesFromDetection s detection now nowMs).2.failed.npcs.length =
      ((detection.entities.bind DetectionEntities.npcs).getD []).length) ∧
    (∀ id : String, (s.em.entities.npc.get id).isSome →
      (createEntitiesFromDetection s detection now nowMs).1.em.entities.npc.get id =
        s.em.entities.npc.get id) := by
  unfold createEntitiesFromDetection
  cases hent : detection.entities with
  | none => simp
  | some ents =>
    dsimp only
    have h1 := npcLoop_props now (ents.npcs.getD []) s {}
    have h2 := factionLoop_npc now (ents.factions.getD [])
      (npcLoop now s {} (ents.npcs.getD [])).1
      (npcLoop now s {} (ents.npcs.getD [])).2
    set p1 := npcLoop now s {} (ents.npcs.getD []) with hp1
    set p2 := factionLoop now p1.1 p1.2 (ents.factions.getD []) with hp2
    have h3 := locationLoop_npc now (ents.locations.getD []) p2.1 p2.2
    set p3 := locationLoop now p2.1 p2.2 (ents.locations.getD []) with hp3
    have h4 := itemLoop_npc now (ents.items.getD []) p3.1 p3.2
    set p4 := itemLoop now p3.1 p3.2 (ents.items.getD []) with hp4
    have h5 := eventLoop_npc now nowMs (ents.events.getD []) p4.1 p4.2
    set p5 := eventLoop now nowMs p4.1 p4.2 (ents.events.getD []) with hp5
    constructor
    · rw [h5.2.1, h5.2.2, h4.2.1, h4.2.2, h3.2.1, h3.2.2, h2.2.1, h2.2.2, h1.1]
      simp
    · intro id hid
      rw [h5.1, h4.1, h3.1, h2.1, h1.2 id hid]

/-- Fifteen stored NPCs (the per-location maximum) located at `tavern`. -/
def tavernNpcs : JsObj NPC :=
  (List.range 15).map (fun i =>
    ("p" ++ toString i,
     NPC.make ("p" ++ toString i) { location := some "tavern" } "t0"))

/-- A store holding the per-location maximum of 15 NPCs at `tavern`. -/
def emTavernFull : EntityManager :=
  { EntityManager.init with entities :=
      { EntityManager.init.entities with npc := tavernNpcs } }

/-- The C3 scenario state. -/
def sTavernFull : SysState :=
  { em := emTavernFull, graph := RelationshipGraph.init, world := WorldState.init }

/-- A valid proposed NPC (placed at `keep`, which has room). -/
def goodNpcData (nm : String) : EntityData :=
  { id := some nm, name := some nm, location := some "keep" }

/-- The invalid proposed NPC (placed at the full `tavern`). -/
def badNpcData : EntityData :=
  { id := some "zed", name := some "zed", location := some "tavern" }

/-- The proposed NPC list: 3 valid NPCs and 1 exceeding location capacity. -/
def threeGoodOneBad : List EntityData :=
  [goodNpcData "n1", goodNpcData "n2", goodNpcData "n3", badNpcData]

/-- The C3 payload. -/
def payloadThreeGoodOneBad : Detection :=
  { entities := some { npcs := some threeGoodOneBad } }

/-- C3 counterexample: on the 3-valid/1-invalid payload, exactly 3 NPCs are
committed and the rejected one lands in the failed bucket — but its `reason`
is `undefined` (`none`), not a reason string: the wired `ValidationSystem`
reports the capacity message in `warnings`, which the pipeline never copies
into `reason`, so the batch warning reads `"... : undefined"`. -/
theorem batch_three_valid_one_invalid_reason_undefined :
    (createEntitiesFromDetection sTavernFull payloadThreeGoodOneBad "t1" 0).2.created.npcs.length = 3 ∧
    (createEntitiesFromDetection sTavernFull payloadThreeGoodOneBad "t1" 0).2.failed.npcs.map
      FailedEntry.data = [badNpcData] ∧
    (createEntitiesFromDetection sTavernFull payloadThreeGoodOneBad "t1" 0).2.failed.npcs.map
      FailedEntry.reason = [none] ∧
    (createEntitiesFromDetection sTavernFull payloadThreeGoodOneBad "t1" 0).2.warnings =
      ["Failed to create NPC zed: undefined"] := by
  refine ⟨by decide, by decide, by decide, by decide⟩

/-- C3 witness: the containment theorem instantiated at the concrete
3-valid/1-invalid scenario, with a pre-committed NPC binding preserved. -/
theorem batch_partial_failure_containment_witness :
    ((createEntitiesFromDetection sTavernFull payloadThreeGoodOneBad "t1" 0).2.created.npcs.length +
      (createEntitiesFromDetection sTavernFull payloadThreeGoodOneBad "t1" 0).2.failed.npcs.length =
      ((payloadThreeGoodOneBad.entities.bind DetectionEntities.npcs).getD []).length) ∧
    (createEntitiesFromDetection sTavernFull payloadThreeGoodOneBad "t1" 0).1.em.entities.npc.get "p0" =
      sTavernFull.em.entities.npc.get "p0" :=
  ⟨(batch_partial_failure_containment sTavernFull payloadThreeGoodOneBad "t1" 0).1,
   (batch_partial_failure_containment sTavernFull payloadThreeGoodOneBad "t1" 0).2 "p0"
     (by decide)⟩

/-- A successful `createNpc` appends exactly one audit record to the NPC
creation history. -/
theorem createNpc_ok_hist (em : EntityManager) (key : String) (d : EntityData)
    (now : String) (v : NPC) (em' : EntityManager)
    (h : em.createNpc key d now = .ok (v, em')) :
    em'.creationHistory.npc =
      em.creationHistory.npc ++ [{ id := key, created := now, data := d }] := by
  unfold EntityManager.createNpc at h
  by_cases hg : (em.entities.npc.get key).isSome
  · simp [hg] at h
  · simp [hg] at h
    obtain ⟨_, hem⟩ := h
    subst hem
    simp [EntityManager.pushHistory]

/-- The NPC loop leaves the graph and the world untouched and only appends to
the NPC creation history. -/
theorem npcLoop_frame (now : String) :
    ∀ (l : List EntityData) (s : SysState) (r : CreationResults),
      (npcLoop now s r l).1.graph = s.graph ∧
      (npcLoop now s r l).1.world = s.world ∧
      ∃ ext : List CreationRecord,
        (npcLoop now s r l).1.em.creationHistory.npc =
          s.em.creationHistory.npc ++ ext := by
  intro l
  induction l with
  | nil => intro s r; exact ⟨by simp [npcLoop], by simp [npcLoop], [], by simp [npcLoop]⟩
  | cons npcData rest ih =>
    intro s r
    unfold npcLoop
    by_cases hv : (validateNPCCreation npcData s.gameState).valid = true
    · rw [if_pos hv]
      cases hc : s.em.createNpc (jsShow npcData.id) npcData now with
      | ok p =>
        obtain ⟨npc, em'⟩ := p
        have hhist := createNpc_ok_hist s.em (jsShow npcData.id) npcData now npc em' hc
        dsimp only
        obtain ⟨hg, hw, ext, hext⟩ := ih { s with em := em' } (r.pushCreatedNpc npc)
        refine ⟨hg, hw, { id := jsShow npcData.id, created := now, data := npcData } :: ext, ?_⟩
        rw [hext]
        simp [hhist]
      | error e =>
        dsimp only
        exact ih s _
    · rw [if_neg hv]
      exact ih s _

/-- The faction loop leaves the relationship edges, the global relationship
ledger, the world, and the NPC creation history untouched (only player
standings, the faction store and the faction history change). -/
theorem factionLoop_frame (now : String) :
    ∀ (l : List EntityData) (s : SysState) (r : CreationResults),
      (factionLoop now s r l).1.graph.relationships = s.graph.relationships ∧
      (factionLoop now s r l).1.graph.relationshipHistory = s.graph.relationshipHistory ∧
      (factionLoop now s r l).1.world = s.world ∧
      (factionLoop now s r l).1.em.creationHistory.npc = s.em.creationHistory.npc := by
  intro l
  induction l with
  | nil => intro s r; simp [factionLoop]
  | cons factionData rest ih =>
    intro s r
    unfold factionLoop
    by_cases hv : (validateFactionCreation factionData s.gameState).valid = true
    · rw [if_pos hv]
      cases hc : s.em.createFaction (jsShow factionData.id) factionData now with
      | ok p =>
        obtain ⟨faction, em'⟩ := p
        have hem' : em'.creationHistory.npc = s.em.creationHistory.npc := by
          unfold EntityManager.createFaction at hc
          by_cases hg : (s.em.entities.faction.get (jsShow factionData.id)).isSome
          · simp [hg] at hc
          · simp [hg] at hc
            obtain ⟨_, hem⟩ := hc
            subst hem
            simp [EntityManager.pushHistory]
        dsimp only
        obtain ⟨h1, h2, h3, h4⟩ :=
          ih ⟨em', Core.setPlayerStanding s.graph faction.id ⟨some 0, none, none, some now⟩ now, s.world⟩
            (r.pushCreatedFaction faction)
        refine ⟨?_, ?_, h3, by rw [h4]; exact hem'⟩
        · rw [h1]; simp [Core.setPlayerStanding]
        · rw [h2]; simp [Core.setPlayerStanding]
      | error e =>
        dsimp only
        exact ih s _
    · rw [if_neg hv]
      exact ih s _

/-- `autoConnectLoop` leaves the NPC creation history untouched. -/
theorem autoConnectLoop_hist (locId : String) :
    ∀ (l : List String) (em : EntityManager),
      (autoConnectLoop em locId l).creationHistory = em.creationHistory := by
  intro l
  induction l with
  | nil => intro em; simp [autoConnectLoop]
  | cons otherId rest ih =>
    intro em
    unfold autoConnectLoop
    cases hl : em.entities.location.get locId with
    | none => exact ih em
    | some loc =>
      cases ho : em.entities.location.get otherId with
      | none => exact ih em
      | some other =>
        dsimp only
        by_cases hcond : other.id ≠ loc.id ∧ loc.connectedTo.length < 3 ∧
            areLocationsConnectable loc other = true
        · rw [if_pos hcond]
          simp [EntityManager.putLocation]
        · rw [if_neg hcond]
          exact ih em

/-- `autoConnectLocation` leaves the NPC creation history untouched. -/
theorem autoConnectLocation_hist (em : EntityManager) (locId : String) :
    (autoConnectLocation em locId).creationHistory = em.creationHistory := by
  unfold autoConnectLocation
  rw [autoConnectLoop_hist]
  by_cases h1 : locId ≠ "village_square"
  · rw [if_pos h1]
    cases em.entities.location.get "village_square" with
    | none => rfl
    | some currentLoc =>
      cases em.entities.location.get locId with
      | none => rfl
      | some loc =>
        dsimp only
        by_cases h2 : areLocationsConnectable loc currentLoc = true
        · rw [if_pos h2]
          simp [EntityManager.putLocation]
        · rw [if_neg h2]
  · rw [if_neg h1]

/-- The location loop leaves the graph, the world, and the NPC creation
history untouched. -/
theorem locationLoop_frame (now : String) :
    ∀ (l : List EntityData) (s : SysState) (r : CreationResults),
      (locationLoop now s r l).1.graph = s.graph ∧
      (locationLoop now s r l).1.world = s.world ∧
      (locationLoop now s r l).1.em.creationHistory.npc = s.em.creationHistory.npc := by
  intro l
  induction l with
  | nil => intro s r; simp [locationLoop]
  | cons locationData rest ih =>
    intro s r
    unfold locationLoop
    by_cases hv : (validateLocationCreation locationData s.gameState).valid = true
    · rw [if_pos hv]
      cases hc : s.em.createLocation (jsShow locationData.id) locationData now with
      | ok p =>
        obtain ⟨location, em'⟩ := p
        have hem' : em'.creationHistory.npc = s.em.creationHistory.npc := by
          unfold EntityManager.createLocation at hc
          by_cases hg : (s.em.entities.location.get (jsShow locationData.id)).isSome
          · simp [hg] at hc
          · simp [hg] at hc
            obtain ⟨_, hem⟩ := hc
            subst hem
            simp [EntityManager.pushHistory]
        dsimp only
        by_cases hconn : location.connectedTo.length = 0
        · rw [if_pos hconn]
          obtain ⟨h1, h2, h3⟩ := ih
            { s with em := autoConnectLocation em' (jsShow locationData.id) }
            (r.pushCreatedLocation location)
          refine ⟨h1, h2, ?_⟩
          rw [h3]
          show ((autoConnectLocation em' (jsShow locationData.id)).creationHistory).npc =
            s.em.creationHistory.npc
          rw [autoConnectLocation_hist]
          exact hem'
        · rw [if_neg hconn]
          obtain ⟨h1, h2, h3⟩ := ih { s with em := em' } (r.pushCreatedLocation location)
          exact ⟨h1, h2, by rw [h3]; exact hem'⟩
      | error e =>
        dsimp only
        exact ih s _
    · rw [if_neg hv]
      exact ih s _

/-- The item loop leaves the graph, the world, and the NPC creation history
untouched. -/
theorem itemLoop_frame (now : String) :
    ∀ (l : List EntityData) (s : SysState) (r : CreationResults),
      (itemLoop now s r l).1.graph = s.graph ∧
      (itemLoop now s r l).1.world = s.world ∧
      (itemLoop now s r l).1.em.creationHistory.npc = s.em.creationHistory.npc := by
  intro l
  induction l with
  | nil => intro s r; simp [itemLoop]
  | cons itemData rest ih =>
    intro s r
    unfold itemLoop
    by_cases hv : (validateItemCreation itemData s.gameState).valid = true
    · rw [if_pos hv]
      cases hc : s.em.createItem (jsShow itemData.id) itemData now with
      | ok p =>
        obtain ⟨item, em'⟩ := p
        have hem' : em'.creationHistory.npc = s.em.creationHistory.npc := by
          unfold EntityManager.createItem at hc
          by_cases hg : (s.em.entities.item.get (jsShow itemData.id)).isSome
          · simp [hg] at hc
          · simp [hg] at hc
            obtain ⟨_, hem⟩ := hc
            subst hem
            simp [EntityManager.pushHistory]
        dsimp only
        obtain ⟨h1, h2, h3⟩ := ih { s with em := em' } (r.pushCreatedItem item)
        exact ⟨h1, h2, by rw [h3]; exact hem'⟩
      | error e =>
        dsimp only
        exact ih s _
    · rw [if_neg hv]
      exact ih s _

/-- The event loop leaves the entity store and the graph untouched, and in
the world it only moves events and history — never the global parameters or
the rumor/news feeds. -/
theorem eventLoop_frame (now : String) (nowMs : ℕ) :
    ∀ (l : List EntityData) (s : SysState) (r : CreationResults),
      (eventLoop now nowMs s r l).1.em = s.em ∧
      (eventLoop now nowMs s r l).1.graph = s.graph ∧
      (eventLoop now nowMs s r l).1.world.globalParameters = s.world.globalParameters ∧
      (eventLoop now nowMs s r l).1.world.information = s.world.information := by
  intro l
  induction l with
  | nil => intro s r; simp [eventLoop]
  | cons eventData rest ih =>
    intro s r
    unfold eventLoop
    by_cases hv : (validateEventCreation eventData s.gameState).valid = true
    · rw [if_pos hv]
      dsimp only
      obtain ⟨h1, h2, h3, h4⟩ := ih
        { s with world := (s.world.addEvent eventData.toEventData now nowMs).2 }
        (r.pushCreatedEvent (s.world.addEvent eventData.toEventData now nowMs).1)
      refine ⟨h1, h2, ?_, ?_⟩
      · rw [h3]
        simp [WorldState.addEvent, WorldState.recordWorldChange]
      · rw [h4]
        simp [WorldState.addEvent, WorldState.recordWorldChange]
    · rw [if_neg hv]
      exact ih s _

/-- A whole `createEntitiesFromDetection` pass never touches the relationship
edges, the relationship ledger, the world parameters or the rumor/news feeds,
and only appends to the NPC creation history. -/
theorem createEntitiesFromDetection_frame (s : SysState) (detection : Detection)
    (now : String) (nowMs : ℕ) :
    (createEntitiesFromDetection s detection now nowMs).1.graph.relationships =
      s.graph.relationships ∧
    (createEntitiesFromDetection s detection now nowMs).1.graph.relationshipHistory =
      s.graph.relationshipHistory ∧
    (createEntitiesFromDetection s detection now nowMs).1.world.globalParameters =
      s.world.globalParameters ∧
    (createEntitiesFromDetection s detection now nowMs).1.world.information =
      s.world.information ∧
    ∃ ext : List CreationRecord,
      (createEntitiesFromDetection s detection now nowMs).1.em.creationHistory.npc =
        s.em.creationHistory.npc ++ ext := by
  unfold createEntitiesFromDetection
  cases hent : detection.entities with
  | none => exact ⟨rfl, rfl, rfl, rfl, [], by simp⟩
  | some ents =>
    dsimp only
    obtain ⟨n1, n2, ext0, n3⟩ := npcLoop_frame now (ents.npcs.getD []) s {}
    set p1 := npcLoop now s {} (ents.npcs.getD []) with hp1
    obtain ⟨f1, f2, f3, f4⟩ := factionLoop_frame now (ents.factions.getD []) p1.1 p1.2
    set p2 := factionLoop now p1.1 p1.2 (ents.factions.getD []) with hp2
    obtain ⟨l1, l2, l3⟩ := locationLoop_frame now (ents.locations.getD []) p2.1 p2.2
    set p3 := locationLoop now p2.1 p2.2 (ents.locations.getD []) with hp3
    obtain ⟨i1, i2, i3⟩ := itemLoop_frame now (ents.items.getD []) p3.1 p3.2
    set p4 := itemLoop now p3.1 p3.2 (ents.items.getD []) with hp4
    obtain ⟨e1, e2, e3, e4⟩ := eventLoop_frame now nowMs (ents.events.getD []) p4.1 p4.2
    refine ⟨?_, ?_, ?_, ?_, ext0, ?_⟩
    · rw [e2, i1, l1, f1, n1]
    · rw [e2, i1, l1, f2, n1]
    · rw [e3, i2, l2, f3, n2]
    · rw [e4, i2, l2, f3, n2]
    · rw [e1, i3, l3, f4, n3]

/-- Draining a queue of payloads through `createEntitiesFromDetection` keeps
the graph edges/ledger and the world parameters/feeds intact, and extends the
NPC creation history by one (possibly empty) contiguous block per payload, in
queue order. -/
theorem drain_frame (now : String) (nowMs : ℕ) :
    ∀ (arrivals : List Detection) (s : SysState),
      (arrivals.foldl (fun st q => (createEntitiesFromDetection st q now nowMs).1)
        s).graph.relationships = s.graph.relationships ∧
      (arrivals.foldl (fun st q => (createEntitiesFromDetection st q now nowMs).1)
        s).graph.relationshipHistory = s.graph.relationshipHistory ∧
      (arrivals.foldl (fun st q => (createEntitiesFromDetection st q now nowMs).1)
        s).world.globalParameters = s.world.globalParameters ∧
      (arrivals.foldl (fun st q => (createEntitiesFromDetection st q now nowMs).1)
        s).world.information = s.world.information ∧
      ∃ exts : List (List CreationRecord),
        exts.length = arrivals.length ∧
        (arrivals.foldl (fun st q => (createEntitiesFromDetection st q now nowMs).1)
          s).em.creationHistory.npc = s.em.creationHistory.npc ++ exts.flatten := by
  intro arrivals
  induction arrivals with
  | nil => intro s; exact ⟨rfl, rfl, rfl, rfl, [], rfl, by simp⟩
  | cons q rest ih =>
    intro s
    obtain ⟨c1, c2, c3, c4, ext0, c5⟩ :=
      createEntitiesFromDetection_frame s q now nowMs
    obtain ⟨h1, h2, h3, h4, exts, hlen, h5⟩ :=
      ih (createEntitiesFromDetection s q now nowMs).1
    refine ⟨by rw [List.foldl_cons, h1, c1], by rw [List.foldl_cons, h2, c2],
      by rw [List.foldl_cons, h3, c3], by rw [List.foldl_cons, h4, c4],
      ext0 :: exts, by simp [hlen], ?_⟩
    rw [List.foldl_cons, h5, c5]
    simp

/-- C4 (amended): relative to processing the same in-flight payload with an
empty queue, a queue of payloads submitted while Processing changes nothing
about the returned results, the relationship edges, the relationship ledger,
the world parameters, or the rumor/news feeds — queued payloads are drained
FIFO but only their proposed *entities* are committed (one contiguous NPC
creation-history block per payload, in submission order, each strictly after
the in-flight batch's commits); their relationships and world updates are
never applied, and their results are discarded. -/
theorem queue_drained_entities_only_in_order (s : SysState) (A : Detection)
    (Q : List Detection) (now : String) (nowMs : ℕ) (acc : ℚ) :
    (processEntityCreationRun s A Q now nowMs acc).1 =
      (processEntityCreationRun s A [] now nowMs acc).1 ∧
    (processEntityCreationRun s A Q now nowMs acc).2.graph.relationships =
      (processEntityCreationRun s A [] now nowMs acc).2.graph.relationships ∧
    (processEntityCreationRun s A Q now nowMs acc).2.graph.relationshipHistory =
      (processEntityCreationRun s A [] now nowMs acc).2.graph.relationshipHistory ∧
    (processEntityCreationRun s A Q now nowMs acc).2.world.globalParameters =
      (processEntityCreationRun s A [] now nowMs acc).2.world.globalParameters ∧
    (processEntityCreationRun s A Q now nowMs acc).2.world.information =
      (processEntityCreationRun s A [] now nowMs acc).2.world.information ∧
    ∃ exts : List (List CreationRecord),
      exts.length = Q.length ∧
      (processEntityCreationRun s A Q now nowMs acc).2.em.creationHistory.npc =
        (processEntityCreationRun s A [] now nowMs acc).2.em.creationHistory.npc ++
          exts.flatten := by
  unfold processEntityCreationRun
  dsimp only
  rcases happ : applyWorldUpdates
      (processRelationships (createEntitiesFromDetection s A now nowMs).1 now
        (A.relationships.getD []))
      (A.worldUpdates.getD {}) now acc with ⟨s3, err⟩
  cases err with
  | some e =>
    dsimp only
    exact ⟨rfl, rfl, rfl, rfl, rfl, List.replicate Q.length [],
      by simp, by simp⟩
  | none =>
    dsimp only
    obtain ⟨h1, h2, h3, h4, exts, hlen, h5⟩ := drain_frame now nowMs Q s3
    exact ⟨rfl, by simpa using h1, by simpa using h2, by simpa using h3,
      by simpa using h4, exts, hlen, by simpa using h5⟩

/-- Two stored NPCs for the C4 scenario. -/
def xyNpcs : JsObj NPC := [("x", NPC.make "x" {} "t0"), ("y", NPC.make "y" {} "t0")]

/-- The C4 scenario store. -/
def emXY : EntityManager :=
  { EntityManager.init with entities :=
      { EntityManager.init.entities with npc := xyNpcs } }

/-- The C4 scenario state. -/
def sXY : SysState :=
  { em := emXY, graph := RelationshipGraph.init, world := WorldState.init }

/-- A proposed relationship between the two existing NPCs. -/
def relXY : List RelProposal :=
  [{ entity1 := "x", entity2 := "y", type := some "ally", strength := some 80,
     reason := some "r" }]

/-- The queued batch of the C4 scenario: one relationship proposal whose
endpoints both exist. -/
def queuedBatchB : Detection := { relationships := some relXY }

/-- C4 counterexample: batch B (a relationship between two existing NPCs)
queued behind an empty in-flight batch A is drained without error, yet its
relationship is never committed — although the very same payload processed
in-flight does commit the edge (with strength 80). -/
theorem queued_relationships_not_committed :
    (processEntityCreationRun sXY {} [queuedBatchB] "t1" 0 0).1.isOk = true ∧
    Core.getRelationship
      (processEntityCreationRun sXY {} [queuedBatchB] "t1" 0 0).2.graph "x" "y" = none ∧
    (Core.getRelationship
      (processEntityCreationRun sXY queuedBatchB [] "t1" 0 0).2.graph "x" "y").map
      Relationship.strength = some 80 := by
  refine ⟨by decide, by decide, by decide⟩
